import Mathlib

/-!
Shallow embedding of the Norrkoping game coordinator (src/gamemaster.py).

The `Game` class is embedded as a record of its fields; every event handler
becomes a pure function from the game state (plus the randomness the source
draws and the current wall-clock instant `now : Int`) to an
`Except String (Game × List Cmd)`: the `.error` case models a Python
`assert` failure / `KeyError` / `IndexError` / `ValueError` aborting the
handler, and the command list collects the actuator messages the handler
enqueues on unit sessions, with their absolute `at` timestamps.

Randomness (`random.randint`, `random.choice`, `random.shuffle`) is passed
in explicitly: `randint` results as `Nat` arguments, `choice` and `shuffle`
as function arguments; theorems add the contracts of those primitives
(index ranges, membership, permutation) as hypotheses where needed.

Times and latencies are integer milliseconds; `timedelta(seconds=0.1)` is
`100`.
-/

/-- The `Game.STATES` enumeration of the source. -/
inductive GState where
  | NoUnits
  | PreGameSingle
  | PreGameMultiple
  | Playing
  | PlayingAllReleased
  | Lose
  | Win
  | WaitRelease
  | PreGameMultiplayer
  | PlayingMultiplayer
  | EndMultiplayer
  | Timeout
deriving DecidableEq

/-- Which coroutine currently occupies the `_control_task` slot. -/
inductive CtrlTask where
  | PreGameSingleT
  | PreGameMultipleT
  | PlayingT
  | PlayingAllReleasedT
  | LoseT
  | WinT
  | TimeoutT
  | WaitReleaseT
  | PlayingMultiplayerT
  | EndMultiplayerT (player : Nat)
deriving DecidableEq

/-- An LED pattern: a named animation or an RGB triple. -/
inductive Pattern where
  | named (s : String)
  | rgb (r g b : Nat)
deriving DecidableEq

/-- The kind of an actuator command sent to a unit. -/
inductive CmdKind where
  | buttonLedStart (p : Pattern)
  | buttonLedOff
  | matrixLedStart (p : Pattern)
  | matrixLedOff
  | soundStart (filename : String)
  | soundStop
deriving DecidableEq

/-- One actuator command enqueued on a unit session: target unit id,
payload, and the absolute wall-clock timestamp it carries. -/
structure Cmd where
  target : Nat
  kind : CmdKind
  atTime : Int
deriving DecidableEq

/-- The source's `Unit` class (renamed: `Unit` is Lean's unit type).
`latency` is `unit.ws.latency`. -/
structure GameUnit where
  unit_id : Nat
  latency : Int
  button_pressed : Bool
deriving DecidableEq

def GameUnit.start_button_led (u : GameUnit) (p : Pattern) (t : Int) : Cmd :=
  ⟨u.unit_id, CmdKind.buttonLedStart p, t⟩

def GameUnit.start_matrix (u : GameUnit) (p : Pattern) (t : Int) : Cmd :=
  ⟨u.unit_id, CmdKind.matrixLedStart p, t⟩

def GameUnit.play_sound (u : GameUnit) (f : String) (t : Int) : Cmd :=
  ⟨u.unit_id, CmdKind.soundStart f, t⟩

def GameUnit.stop_all (u : GameUnit) (t : Int) : List Cmd :=
  [⟨u.unit_id, CmdKind.buttonLedOff, t⟩,
   ⟨u.unit_id, CmdKind.matrixLedOff, t⟩,
   ⟨u.unit_id, CmdKind.soundStop, t⟩]

/-- Sound catalog paths. -/
def loseFile (n : Nat) : String := "sounds/lose/lose" ++ toString n ++ ".wav"

def winFile (n : Nat) : String := "sounds/win/win" ++ toString n ++ ".wav"

def greenFile (n : Nat) : String :=
  "sounds/on_green_press/green-press" ++ toString n ++ ".wav"

/-- `Unit.win` in the source. -/
def GameUnit.win (u : GameUnit) (sound : String) (t : Int) : List Cmd :=
  [u.start_button_led (Pattern.named "colorscroll") t,
   u.start_matrix (Pattern.named "colorscroll") t,
   u.play_sound sound t]

/-- `Unit.lose` in the source. -/
def GameUnit.lose (u : GameUnit) (sound : String) (t : Int) : List Cmd :=
  [u.start_button_led (Pattern.named "flash_red") t,
   u.start_matrix (Pattern.named "swipe_red") t,
   u.play_sound sound t]

/-- `Unit.correct_pressed`; `green` is the `random.randint(1, 7)` draw. -/
def GameUnit.correct_pressed (u : GameUnit) (green : Nat) (t : Int) : List Cmd :=
  [u.start_button_led (Pattern.rgb 0 200 0) t,
   u.start_matrix (Pattern.rgb 0 128 0) t,
   u.play_sound (greenFile green) t]

/-- `Unit.correct_pressed_multiplayer`. -/
def GameUnit.correct_pressed_multiplayer (u : GameUnit)
    (color : Nat × Nat × Nat) (green : Nat) (t : Int) : List Cmd :=
  [u.start_button_led (Pattern.rgb color.1 color.2.1 color.2.2) t,
   u.start_matrix (Pattern.rgb color.1 color.2.1 color.2.2) t,
   u.play_sound (greenFile green) t]

/-- `Unit.correct`: light the yellow target. -/
def GameUnit.correct (u : GameUnit) (t : Int) : List Cmd :=
  [u.start_button_led (Pattern.rgb 255 255 0) t,
   u.start_matrix (Pattern.rgb 255 205 0) t]

/-- `Unit.wrong`: light the red decoy. -/
def GameUnit.wrong (u : GameUnit) (t : Int) : List Cmd :=
  [u.start_button_led (Pattern.rgb 255 0 0) t,
   u.start_matrix (Pattern.rgb 180 0 0) t]

/-- The full engine state: the fields of the source's `Game.__init__`
(the unused `sleeping`, `unit_player_map` and `wrong_units` fields are
omitted).  `transition_pending` models the dangling
`transition_to_multiplayer` task spawned by `_start_multiplayer`. -/
structure Game where
  state : GState
  ACTIVE : List (Nat × GameUnit)
  fast_press_detected : Bool
  player_scores : Nat × Nat
  player_colors : (Nat × Nat × Nat) × (Nat × Nat × Nat)
  correct_units : Option Nat × Option Nat
  last_press_time : Option Int
  last_button_press : Option Int
  press_threshold : Int
  previous_correct : List Nat
  unit_list : List Nat
  correct : Option Nat
  wrong : Option Nat
  pressed_units : List GameUnit
  player_unit_queue : List Nat × List Nat
  control_task : Option CtrlTask
  transition_pending : Bool
deriving DecidableEq

/-- The state of `Game()` right after `__init__`. -/
def initGame : Game where
  state := GState.NoUnits
  ACTIVE := []
  fast_press_detected := false
  player_scores := (0, 0)
  player_colors := ((255, 255, 0), (0, 0, 255))
  correct_units := (none, none)
  last_press_time := none
  last_button_press := none
  press_threshold := 2000
  previous_correct := []
  unit_list := []
  correct := none
  wrong := none
  pressed_units := []
  player_unit_queue := ([], [])
  control_task := none
  transition_pending := false

/-- The random draws a handler may consume. -/
structure RandDraws where
  green_sound : Nat
  lose_sound : Nat
  win_sound : Nat
  choice : List Nat → Nat
  shuffle : List Nat → List Nat

/-- Scheduled timestamp: `datetime.now() + timedelta(seconds=0.1) +
timedelta(seconds=latency)`. -/
def sched (now lat : Int) : Int := now + 100 + lat

/-- Python `dict` lookup on an insertion-ordered association list. -/
def dictLookup (d : List (Nat × GameUnit)) (k : Nat) : Option GameUnit :=
  match d with
  | [] => none
  | (k0, v0) :: rest => if k0 = k then some v0 else dictLookup rest k

/-- Python `dict` assignment: update in place, else append. -/
def dictInsert (d : List (Nat × GameUnit)) (k : Nat) (v : GameUnit) :
    List (Nat × GameUnit) :=
  match d with
  | [] => [(k, v)]
  | (k0, v0) :: rest =>
      if k0 = k then (k, v) :: rest else (k0, v0) :: dictInsert rest k v

/-- Python `dict.pop(k, None)`. -/
def dictRemove (d : List (Nat × GameUnit)) (k : Nat) : List (Nat × GameUnit) :=
  d.filter (fun p => p.1 ≠ k)

/-- `list(self.ACTIVE.keys())`. -/
def activeKeys (d : List (Nat × GameUnit)) : List Nat := d.map Prod.fst

/-- `self.ACTIVE.values()`. -/
def activeValues (d : List (Nat × GameUnit)) : List GameUnit := d.map Prod.snd

/-- `self.pressed_units.add(unit)`: the set holds `Unit` objects; objects
are identified by `unit_id` (the engine only ever stores the object
registered under that id), and re-adding refreshes the stored object to
mirror Python's aliasing of the mutated `ACTIVE` entry. -/
def insertPressed (u : GameUnit) (l : List GameUnit) : List GameUnit :=
  if l.any (fun v => v.unit_id = u.unit_id) then
    l.map (fun v => if v.unit_id = u.unit_id then u else v)
  else u :: l

/-- `self.pressed_units.discard(unit)`. -/
def discardPressed (uid : Nat) (l : List GameUnit) : List GameUnit :=
  l.filter (fun v => v.unit_id ≠ uid)

/-- `max(unit.ws.latency for unit in self.pressed_units)` (the call sites
guarantee the set is non-empty; on `[]` Python would raise). -/
def maxLatency : List GameUnit → Int
  | [] => 0
  | u :: rest => rest.foldl (fun a v => max a v.latency) u.latency

/-- `self.player_scores[p]` / `self.player_colors[p]` /
`self.player_unit_queue[p]` for `p ∈ {1, 2}`. -/
def pget {α : Type} (pr : α × α) (p : Nat) : α :=
  if p = 1 then pr.1 else pr.2

/-- Assignment to a player-indexed pair. -/
def pset {α : Type} (pr : α × α) (p : Nat) (v : α) : α × α :=
  if p = 1 then (v, pr.2) else (pr.1, v)

/-- `stop_all` on every unit of `ACTIVE` at the bare instant `now`
(`datetime.now()` with no margin), as `_reset_game` and
`_setup_multiplayer_game` do. -/
def stopAllActive (now : Int) (g : Game) : List Cmd :=
  ((activeValues g.ACTIVE).map (fun u => u.stop_all now)).flatten

/-- `Game._next_correct`. -/
def next_correct (now : Int) (g : Game) : Except String (Game × List Cmd) :=
  match g.unit_list with
  | [] => Except.ok ({ g with correct := none }, [])
  | c :: rest =>
      match dictLookup g.ACTIVE c with
      | none => Except.error "KeyError: ACTIVE[correct]"
      | some cu =>
          Except.ok ({ g with correct := some c, unit_list := rest },
                     cu.correct (sched now cu.latency))

/-- The tail of `Game._next_wrong`: draw the new decoy from `unit_list`
and light it red.  Note the `stop_all` of the previous decoy handed in as
`stopCmds` is scheduled at the bare instant `now` (`datetime.now()`), with
no 100 ms margin. -/
def next_wrong_pick (now : Int) (choice : List Nat → Nat) (g : Game)
    (stopCmds : List Cmd) : Except String (Game × List Cmd) :=
  match dictLookup g.ACTIVE (choice g.unit_list) with
  | none => Except.error "KeyError: ACTIVE[new wrong]"
  | some wu =>
      Except.ok ({ g with wrong := some (choice g.unit_list) },
                 stopCmds ++ wu.wrong (sched now wu.latency))

/-- `Game._next_wrong` proper: stop the previous decoy (if set and not the
current `correct`), then draw and light the new one. -/
def next_wrong (now : Int) (choice : List Nat → Nat) (g : Game) :
    Except String (Game × List Cmd) :=
  match g.unit_list with
  | [] => Except.ok ({ g with wrong := none }, [])
  | _ :: _ =>
      match g.wrong with
      | none => next_wrong_pick now choice g []
      | some w =>
          if some w = g.correct then next_wrong_pick now choice g []
          else
            match dictLookup g.ACTIVE w with
            | none => Except.error "KeyError: ACTIVE[wrong]"
            | some wu => next_wrong_pick now choice g (wu.stop_all now)

/-- `Game._setup_game`: shuffle the keys of `ACTIVE` into `unit_list`. -/
def setup_game (shuffle : List Nat → List Nat) (g : Game) : Game :=
  { g with unit_list := shuffle (activeKeys g.ACTIVE) }

/-- `Game._is_fast_press`: returns the verdict and updates
`last_press_time` as a side effect (also on the `False` paths). -/
def is_fast_press (now : Int) (g : Game) : Bool × Game :=
  match g.last_press_time with
  | none => (false, { g with last_press_time := some now })
  | some t =>
      (decide (now - t < g.press_threshold),
       { g with last_press_time := some now })

/-- `Game._reset_game`: stop every unit at the bare instant `now`, clear
the round bookkeeping, cancel (but do not replace) the control task. -/
def reset_game (now : Int) (g : Game) : Game × List Cmd :=
  ({ g with previous_correct := [], unit_list := [],
            player_unit_queue := ([], []),
            correct := none, wrong := none, pressed_units := [] },
   stopAllActive now g)

/-- `Game._start_multiplayer`: reset, enter `PreGameMultiplayer`, spawn the
delayed `transition_to_multiplayer` task (modelled by
`transition_pending`); the `_control_task` slot is cancelled but its
content is not replaced here. -/
def start_multiplayer (now : Int) (g : Game) : Except String (Game × List Cmd) :=
  let rg := reset_game now g
  Except.ok ({ rg.1 with state := GState.PreGameMultiplayer,
                         transition_pending := true }, rg.2)

/-- `Game._next_correct_multi`: pop the player's queue, record the new
target, and light it with the player-colored effects at the bare instant
`now`. -/
def next_correct_multi (now : Int) (p : Nat) (g : Game) :
    Except String (Game × List Cmd) :=
  match pget g.player_unit_queue p with
  | [] => Except.ok (g, [])
  | c :: rest =>
      match dictLookup g.ACTIVE c with
      | none => Except.error "KeyError: ACTIVE[correct_unit_id]"
      | some cu =>
          let pats : Pattern × Pattern :=
            if pget g.player_colors p = (255, 255, 0) then
              (Pattern.named "flash_yellow_player1_win",
               Pattern.named "swipe_yellow")
            else
              (Pattern.named "flash_blue_player2_win",
               Pattern.named "swipe_blue")
          Except.ok
            ({ g with player_unit_queue := pset g.player_unit_queue p rest,
                      correct_units := pset g.correct_units p (some c) },
             [cu.start_button_led pats.1 now, cu.start_matrix pats.2 now])

/-- The body of `transition_to_multiplayer` inside `_start_multiplayer`
(runs 1 s after the fast press): stop everything, run
`_setup_multiplayer_game`, and install the `PlayingMultiplayer` control
task.  The engine `state` field is not assigned here. -/
def transition_to_multiplayer (now : Int) (shuffle : List Nat → List Nat)
    (g : Game) : Except String (Game × List Cmd) :=
  let cmds0 := stopAllActive now g
  let cmds1 := stopAllActive now g
  let units := shuffle (activeKeys g.ACTIVE)
  let midpoint := units.length / 2
  let g1 := { g with previous_correct := [], player_scores := (0, 0),
                     player_unit_queue := (units.take midpoint, units.drop midpoint) }
  match next_correct_multi now 1 g1 with
  | Except.error e => Except.error e
  | Except.ok (g2, c2) =>
      match next_correct_multi now 2 g2 with
      | Except.error e => Except.error e
      | Except.ok (g3, c3) =>
          Except.ok ({ g3 with control_task := some CtrlTask.PlayingMultiplayerT,
                               transition_pending := false },
                     cmds0 ++ cmds1 ++ c2 ++ c3)

/-- `Game._button_pressed_PreGameSingle`. -/
def button_pressed_PreGameSingle (now : Int) (r : RandDraws) (g : Game)
    (u : GameUnit) : Except String (Game × List Cmd) :=
  let cmds := u.win (winFile r.win_sound) (sched now u.latency)
  match g.control_task with
  | none => Except.error "AssertionError: _control_task is not None"
  | some _ =>
      Except.ok ({ g with control_task := some CtrlTask.WinT,
                          state := GState.Win }, cmds)

/-- `Game._button_pressed_PreGameMultiple`. -/
def button_pressed_PreGameMultiple (now : Int) (r : RandDraws) (g : Game)
    (u : GameUnit) : Except String (Game × List Cmd) :=
  if some u.unit_id = g.correct then
    let cmds := u.correct_pressed r.green_sound (sched now u.latency)
    let g1 := { g with previous_correct := g.previous_correct.insert u.unit_id,
                       last_button_press := some now }
    let g2 := setup_game r.shuffle g1
    -- `self.unit_list.remove(unit.unit_id)`: ValueError if absent
    if u.unit_id ∈ g2.unit_list then
      let g3 := { g2 with unit_list := g2.unit_list.erase u.unit_id }
      match next_correct now g3 with
      | Except.error e => Except.error e
      | Except.ok (g4, c4) =>
          match next_wrong now r.choice g4 with
          | Except.error e => Except.error e
          | Except.ok (g5, c5) =>
              match g5.control_task with
              | none => Except.error "AssertionError: _control_task is not None"
              | some _ =>
                  Except.ok ({ g5 with control_task := some CtrlTask.PlayingT,
                                       state := GState.Playing },
                             cmds ++ c4 ++ c5)
    else Except.error "ValueError: list.remove(x): x not in list"
  else Except.ok (g, [])

/-- `Game._button_pressed_Playing`. -/
def button_pressed_Playing (now : Int) (r : RandDraws) (g : Game) (u : GameUnit) :
    Except String (Game × List Cmd) :=
  if u.unit_id ∈ g.previous_correct then
    Except.ok (g, u.correct_pressed r.green_sound (sched now u.latency))
  else if some u.unit_id = g.wrong then
    match g.pressed_units with
    | [] => Except.error "ValueError: max() arg is an empty sequence"
    | p :: ps =>
        let latency := maxLatency (p :: ps)
        let cmds :=
          ((activeValues g.ACTIVE).map
            (fun un => un.lose (loseFile r.lose_sound) (sched now latency))).flatten
        match g.control_task with
        | none => Except.error "AssertionError: _control_task is not None"
        | some _ =>
            Except.ok ({ g with control_task := some CtrlTask.LoseT,
                                state := GState.Lose }, cmds)
  else if some u.unit_id = g.correct then
    if g.unit_list = [] then
      match g.control_task with
      | none => Except.error "AssertionError: _control_task is not None"
      | some _ =>
          Except.ok ({ g with control_task := some CtrlTask.WinT,
                              state := GState.Win }, [])
    else
      let cmds := u.correct_pressed r.green_sound (sched now u.latency)
      let g1 := { g with previous_correct := g.previous_correct.insert u.unit_id }
      match next_correct now g1 with
      | Except.error e => Except.error e
      | Except.ok (g2, c2) =>
          match next_wrong now r.choice g2 with
          | Except.error e => Except.error e
          | Except.ok (g3, c3) => Except.ok (g3, cmds ++ c2 ++ c3)
  else Except.ok (g, [])

/-- `Game._button_pressed_PlayingAllReleased`: the wrong-press branch
iterates over `self.pressed_units`, not over `ACTIVE`. -/
def button_pressed_PlayingAllReleased (now : Int) (r : RandDraws) (g : Game)
    (u : GameUnit) : Except String (Game × List Cmd) :=
  if u.unit_id ∈ g.previous_correct then
    Except.ok ({ g with state := GState.Playing },
               u.correct_pressed r.green_sound (sched now u.latency))
  else if some u.unit_id = g.wrong then
    match g.pressed_units with
    | [] => Except.error "ValueError: max() arg is an empty sequence"
    | p :: ps =>
        let latency := maxLatency (p :: ps)
        let cmds :=
          ((p :: ps).map
            (fun un => un.lose (loseFile r.lose_sound) (sched now latency))).flatten
        match g.control_task with
        | none => Except.error "AssertionError: _control_task is not None"
        | some _ =>
            Except.ok ({ g with control_task := some CtrlTask.LoseT,
                                state := GState.Lose }, cmds)
  else if some u.unit_id = g.correct then
    let g0 := { g with previous_correct := g.previous_correct.insert u.unit_id }
    if g0.unit_list = [] then
      match g0.control_task with
      | none => Except.error "AssertionError: _control_task is not None"
      | some _ =>
          Except.ok ({ g0 with control_task := some CtrlTask.WinT,
                               state := GState.Win }, [])
    else
      let cmds := u.correct_pressed r.green_sound (sched now u.latency)
      match next_correct now g0 with
      | Except.error e => Except.error e
      | Except.ok (g2, c2) =>
          match next_wrong now r.choice g2 with
          | Except.error e => Except.error e
          | Except.ok (g3, c3) =>
              match g3.control_task with
              | none => Except.error "AssertionError: _control_task is not None"
              | some _ =>
                  Except.ok ({ g3 with control_task := some CtrlTask.PlayingT,
                                       state := GState.Playing },
                             cmds ++ c2 ++ c3)
  else Except.ok (g, [])

/-- `Game._button_pressed_WaitRelease`: re-light the held unit amber. -/
def button_pressed_WaitRelease (now : Int) (g : Game) (u : GameUnit) :
    Except String (Game × List Cmd) :=
  Except.ok (g, [u.start_button_led (Pattern.rgb 0xFF 0xA5 0x00)
                   (sched now u.latency)])

/-- `Game._button_pressed_PlayingMultiplayer` (bound to both
`PreGameMultiplayer` and `PlayingMultiplayer` in the callback table). -/
def button_pressed_PlayingMultiplayer (now : Int) (r : RandDraws) (g : Game)
    (u : GameUnit) : Except String (Game × List Cmd) :=
  let player? : Option Nat :=
    if some u.unit_id = g.correct_units.1 then some 1
    else if some u.unit_id = g.correct_units.2 then some 2
    else none
  match player? with
  | none => Except.ok (g, [])
  | some p =>
      let scores := pset g.player_scores p (pget g.player_scores p + 1)
      let color := pget g.player_colors p
      let cmds := u.correct_pressed_multiplayer color r.green_sound
                    (sched now u.latency)
      let g1 := { g with player_scores := scores,
                         previous_correct := g.previous_correct.insert u.unit_id }
      match next_correct_multi now p g1 with
      | Except.error e => Except.error e
      | Except.ok (g2, c2) =>
          if pget scores p ≥ g2.ACTIVE.length / 2 ∧
             g2.state ≠ GState.EndMultiplayer then
            Except.ok ({ g2 with state := GState.EndMultiplayer,
                                 control_task := some (CtrlTask.EndMultiplayerT p) },
                       cmds ++ c2)
          else
            Except.ok ({ g2 with control_task := some CtrlTask.PlayingMultiplayerT },
                       cmds ++ c2)

/-- The button bookkeeping `unit.button_pressed = True;
self.pressed_units.add(unit)` performed before the per-state callback. -/
def pressedGame (g : Game) (uid : Nat) (u : GameUnit) : Game :=
  { g with ACTIVE := dictInsert g.ACTIVE uid { u with button_pressed := true },
           pressed_units := insertPressed { u with button_pressed := true }
                              g.pressed_units }

/-- Dispatch through `self._button_pressed_callbacks` after the button
bookkeeping (`unit.button_pressed = True`; `pressed_units.add`). -/
def button_pressed_dispatch (now : Int) (r : RandDraws) (g : Game) (uid : Nat)
    (u : GameUnit) : Except String (Game × List Cmd) :=
  let u' := { u with button_pressed := true }
  let g1 := pressedGame g uid u
  match g1.state with
  | GState.PreGameSingle => button_pressed_PreGameSingle now r g1 u'
  | GState.PreGameMultiple => button_pressed_PreGameMultiple now r g1 u'
  | GState.Playing => button_pressed_Playing now r g1 u'
  | GState.PlayingAllReleased => button_pressed_PlayingAllReleased now r g1 u'
  | GState.Lose => Except.ok (g1, [])
  | GState.Win => Except.ok (g1, [])
  | GState.WaitRelease => button_pressed_WaitRelease now g1 u'
  | GState.PreGameMultiplayer => button_pressed_PlayingMultiplayer now r g1 u'
  | GState.PlayingMultiplayer => button_pressed_PlayingMultiplayer now r g1 u'
  | _ => Except.ok (g1, [])

/-- `Game.button_pressed`: drop in `Timeout`; ignore unknown units; check
the fast press (only for the current correct in `Playing` /
`PlayingAllReleased`) before the per-state callback. -/
def button_pressed (now : Int) (r : RandDraws) (g : Game) (uid : Nat) :
    Except String (Game × List Cmd) :=
  if g.state = GState.Timeout then Except.ok (g, [])
  else
    match dictLookup g.ACTIVE uid with
    | none => Except.ok (g, [])
    | some u =>
        if some uid = g.correct ∧
           (g.state = GState.Playing ∨ g.state = GState.PlayingAllReleased) then
          let fp := is_fast_press now g
          if fp.1 then
            start_multiplayer now { fp.2 with fast_press_detected := true }
          else button_pressed_dispatch now r fp.2 uid u
        else button_pressed_dispatch now r g uid u

/-- `Game._button_released_Playing`. -/
def button_released_Playing (g : Game) : Except String (Game × List Cmd) :=
  if g.pressed_units = [] then
    match g.control_task with
    | none => Except.error "AssertionError: _control_task is not None"
    | some _ =>
        Except.ok ({ g with control_task := some CtrlTask.PlayingAllReleasedT,
                            state := GState.PlayingAllReleased }, [])
  else Except.ok (g, [])

/-- `Game._button_released_WaitRelease`. -/
def button_released_WaitRelease (now : Int) (g : Game) (u : GameUnit) :
    Except String (Game × List Cmd) :=
  let cmds := u.stop_all (sched now u.latency)
  let g1 := { g with previous_correct := g.previous_correct.filter
                       (fun x => x ≠ u.unit_id) }
  if g1.pressed_units = [] then
    if g1.ACTIVE.length > 1 then
      match g1.control_task with
      | none => Except.error "AssertionError: _control_task is not None"
      | some _ =>
          Except.ok ({ g1 with control_task := some CtrlTask.PreGameMultipleT,
                               state := GState.PreGameMultiple }, cmds)
    else if g1.ACTIVE.length = 1 then
      match g1.control_task with
      | none => Except.error "AssertionError: _control_task is not None"
      | some _ =>
          Except.ok ({ g1 with control_task := some CtrlTask.PreGameSingleT,
                               state := GState.PreGameSingle }, cmds)
    else Except.ok (g1, cmds)
  else Except.ok (g1, cmds)

/-- `Game.button_released`: drop in `Timeout`; ignore unknown units; then
bookkeeping and the per-state callback. -/
def button_released (now : Int) (g : Game) (uid : Nat) :
    Except String (Game × List Cmd) :=
  if g.state = GState.Timeout then Except.ok (g, [])
  else
    match dictLookup g.ACTIVE uid with
    | none => Except.ok (g, [])
    | some u =>
        let u' := { u with button_pressed := false }
        let g1 := { g with ACTIVE := dictInsert g.ACTIVE uid u',
                           pressed_units := discardPressed uid g.pressed_units }
        match g1.state with
        | GState.Playing => button_released_Playing g1
        | GState.WaitRelease => button_released_WaitRelease now g1 u'
        | _ => Except.ok (g1, [])

/-- `Game._register_NoUnits`. -/
def register_NoUnits (g : Game) : Except String (Game × List Cmd) :=
  match g.control_task with
  | some _ => Except.error "AssertionError: _control_task is None"
  | none =>
      Except.ok ({ g with control_task := some CtrlTask.PreGameSingleT,
                          state := GState.PreGameSingle }, [])

/-- `Game._register_PreGameSingle`. -/
def register_PreGameSingle (g : Game) : Except String (Game × List Cmd) :=
  if g.ACTIVE.length > 1 then
    match g.control_task with
    | none => Except.error "AssertionError: _control_task is not None"
    | some _ =>
        Except.ok ({ g with control_task := some CtrlTask.PreGameMultipleT,
                            state := GState.PreGameMultiple }, [])
  else if g.ACTIVE.length = 1 then
    match g.control_task with
    | none => Except.error "AssertionError: _control_task is not None"
    | some _ =>
        Except.ok ({ g with control_task := some CtrlTask.PreGameSingleT,
                            state := GState.PreGameSingle }, [])
  else Except.ok (g, [])

/-- `Game.register`. -/
def register (now : Int) (g : Game) (uid : Nat) (u : GameUnit) :
    Except String (Game × List Cmd) :=
  let g1 := { g with ACTIVE := dictInsert g.ACTIVE uid u }
  let res :=
    match g1.state with
    | GState.NoUnits => register_NoUnits g1
    | GState.PreGameSingle => register_PreGameSingle g1
    | _ => Except.ok (g1, [])
  match res with
  | Except.error e => Except.error e
  | Except.ok (g2, cmds) =>
      Except.ok (g2, cmds ++ u.stop_all (sched now u.latency))

/-- `Game.unregister`, lines `if unit_id in self.unit_list ... elif
unit_id == self.correct`: drop the unit from the pending list, or advance
`correct` and `wrong` when it was the target. -/
def unregister_listfix (now : Int) (choice : List Nat → Nat) (g1 : Game)
    (uid : Nat) : Except String (Game × List Cmd) :=
  if uid ∈ g1.unit_list then
    Except.ok ({ g1 with unit_list := g1.unit_list.erase uid },
               ([] : List Cmd))
  else if some uid = g1.correct then
    match next_correct now g1 with
    | Except.error e => Except.error e
    | Except.ok (ga, ca) =>
        match next_wrong now choice ga with
        | Except.error e => Except.error e
        | Except.ok (gb, cb) => Except.ok (gb, ca ++ cb)
  else Except.ok (g1, [])

/-- `Game.unregister`, line `if unit_id == self.wrong`: advance the decoy
when the removed unit was it. -/
def unregister_wrongfix (now : Int) (choice : List Nat → Nat) (g2 : Game)
    (uid : Nat) : Except String (Game × List Cmd) :=
  if some uid = g2.wrong then next_wrong now choice g2
  else Except.ok (g2, ([] : List Cmd))

/-- `Game.unregister`, final population recompute (with its
`assert self._control_task is not None` checks). -/
def unregister_finish (g3 : Game) (cs : List Cmd) :
    Except String (Game × List Cmd) :=
  if g3.ACTIVE.length = 0 then
    match g3.control_task with
    | none => Except.error "AssertionError: _control_task is not None"
    | some _ =>
        Except.ok ({ g3 with control_task := none,
                             state := GState.NoUnits }, cs)
  else if g3.state = GState.PreGameMultiple ∧ g3.ACTIVE.length = 1 then
    match g3.control_task with
    | none => Except.error "AssertionError: _control_task is not None"
    | some _ =>
        Except.ok ({ g3 with control_task := some CtrlTask.PreGameSingleT,
                             state := GState.PreGameSingle }, cs)
  else if g3.state = GState.Playing ∧ g3.ACTIVE.length = 1 then
    match g3.control_task with
    | none => Except.error "AssertionError: _control_task is not None"
    | some _ =>
        Except.ok ({ g3 with control_task := some CtrlTask.WinT,
                             state := GState.Win }, cs)
  else Except.ok (g3, cs)

/-- `Game.unregister`. -/
def unregister (now : Int) (choice : List Nat → Nat) (g : Game) (uid : Nat) :
    Except String (Game × List Cmd) :=
  let g1 := { g with ACTIVE := dictRemove g.ACTIVE uid,
                     previous_correct := g.previous_correct.filter
                       (fun x => x ≠ uid) }
  match unregister_listfix now choice g1 uid with
  | Except.error e => Except.error e
  | Except.ok (g2, c2) =>
      match unregister_wrongfix now choice g2 uid with
      | Except.error e => Except.error e
      | Except.ok (g3, c3) => unregister_finish g3 (c2 ++ c3)

/-- `Game._control_PreGameSingle`: stop the previous yellow target, choose
one unit uniformly, light it yellow. -/
def control_PreGameSingle_pick (now : Int) (choice : List Nat → Nat)
    (g : Game) (stopCmds : List Cmd) : Except String (Game × List Cmd) :=
  match activeKeys g.ACTIVE with
  | [] => Except.error "IndexError: choice from empty sequence"
  | _ :: _ =>
      match dictLookup g.ACTIVE (choice (activeKeys g.ACTIVE)) with
      | none => Except.error "KeyError: ACTIVE[correct]"
      | some cu =>
          Except.ok ({ g with correct := some (choice (activeKeys g.ACTIVE)) },
                     stopCmds ++ cu.correct (sched now cu.latency))

/-- `Game._control_PreGameSingle` proper: stop the previous yellow target,
then draw. -/
def control_PreGameSingle (now : Int) (choice : List Nat → Nat) (g : Game) :
    Except String (Game × List Cmd) :=
  match g.correct with
  | none => control_PreGameSingle_pick now choice g []
  | some c =>
      match dictLookup g.ACTIVE c with
      | none => Except.error "KeyError: ACTIVE[correct]"
      | some cu =>
          control_PreGameSingle_pick now choice g
            (cu.stop_all (sched now cu.latency))

/-- One iteration of the `Game._control_PreGameMultiple` attractor loop
(the source sleeps 10 s between iterations).  When the fresh draw equals
the current `correct` the source busy-loops for another draw; a single
equal draw is modelled as the loop not having advanced yet. -/
def control_PreGameMultiple_pick (now : Int) (choice : List Nat → Nat)
    (g : Game) (stopCmds : List Cmd) : Except String (Game × List Cmd) :=
  match activeKeys g.ACTIVE with
  | [] => Except.error "IndexError: choice from empty sequence"
  | _ :: _ =>
      if some (choice (activeKeys g.ACTIVE)) = g.correct then
        Except.ok (g, stopCmds)
      else
        match dictLookup g.ACTIVE (choice (activeKeys g.ACTIVE)) with
        | none => Except.error "KeyError: ACTIVE[correct]"
        | some cu =>
            Except.ok ({ g with correct := some (choice (activeKeys g.ACTIVE)) },
                       stopCmds ++ cu.correct (sched now cu.latency))

/-- `Game._control_PreGameMultiple` proper: stop the previous yellow
target, then draw a different unit. -/
def control_PreGameMultiple (now : Int) (choice : List Nat → Nat) (g : Game) :
    Except String (Game × List Cmd) :=
  match g.correct with
  | none => control_PreGameMultiple_pick now choice g []
  | some c =>
      match dictLookup g.ACTIVE c with
      | none => Except.error "KeyError: ACTIVE[correct]"
      | some cu =>
          control_PreGameMultiple_pick now choice g
            (cu.stop_all (sched now cu.latency))

/-- `Game._control_Timeout` run to completion: cluster-wide lose at the
bare instant `now`, 4 s later stop everything, then return to the attract
state by population. -/
def control_Timeout (now : Int) (r : RandDraws) (g : Game) :
    Except String (Game × List Cmd) :=
  let cmds := ((activeValues g.ACTIVE).map
                 (fun un => un.lose (loseFile r.lose_sound) now)).flatten
              ++ stopAllActive now g
  if g.pressed_units = [] then
    if g.ACTIVE.length > 1 then
      Except.ok ({ g with control_task := some CtrlTask.PreGameMultipleT,
                          state := GState.PreGameMultiple }, cmds)
    else if g.ACTIVE.length = 1 then
      Except.ok ({ g with control_task := some CtrlTask.PreGameSingleT,
                          state := GState.PreGameSingle }, cmds)
    else Except.ok (g, cmds)
  else Except.ok (g, cmds)

/-- `Game._control_Lose` run to completion.  Every command it emits — the
cluster-wide `lose` and the later `stop_all` — carries the bare instant
`now` (`datetime.now()`), with no 100 ms margin and no latency term. -/
def control_Lose (now : Int) (r : RandDraws) (g : Game) :
    Except String (Game × List Cmd) :=
  let cmds := ((activeValues g.ACTIVE).map
                 (fun un => un.lose (loseFile r.lose_sound) now)).flatten
              ++ stopAllActive now g
  if g.ACTIVE.length > 1 then
    Except.ok ({ g with control_task := some CtrlTask.PreGameMultipleT,
                        previous_correct := [],
                        state := GState.PreGameMultiple }, cmds)
  else if g.ACTIVE.length = 1 then
    Except.ok ({ g with control_task := some CtrlTask.PreGameSingleT,
                        previous_correct := [],
                        state := GState.PreGameSingle }, cmds)
  else Except.ok (g, cmds)

/-- `Game._control_Win` run to completion. -/
def control_Win (now : Int) (r : RandDraws) (g : Game) :
    Except String (Game × List Cmd) :=
  let cmds := ((activeValues g.ACTIVE).map
                 (fun un => un.win (winFile r.win_sound) now)).flatten
              ++ stopAllActive now g
  if g.ACTIVE.length > 1 then
    Except.ok ({ g with control_task := some CtrlTask.PreGameMultipleT,
                        previous_correct := [],
                        state := GState.PreGameMultiple }, cmds)
  else if g.ACTIVE.length = 1 then
    Except.ok ({ g with control_task := some CtrlTask.PreGameSingleT,
                        previous_correct := [],
                        state := GState.PreGameSingle }, cmds)
  else Except.ok (g, cmds)

/-- `Game._control_WaitRelease`: after 10 s flash every held unit blue. -/
def control_WaitRelease (now : Int) (g : Game) :
    Except String (Game × List Cmd) :=
  Except.ok (g, g.pressed_units.map
    (fun un => un.start_button_led (Pattern.named "flash_blue")
                 (sched now un.latency)))

/-- `Game._player_win` (the body of `_control_EndMultiplayer`): cluster
"player p wins" cue, stop-all, reset, return to `PreGameMultiple`. -/
def player_win (now : Int) (r : RandDraws) (p : Nat) (g : Game) :
    Except String (Game × List Cmd) :=
  let pats : Pattern × Pattern :=
    if pget g.player_colors p = (255, 255, 0) then
      (Pattern.named "flash_yellow_player1_win", Pattern.named "swipe_yellow")
    else
      (Pattern.named "flash_blue_player2_win", Pattern.named "swipe_blue")
  let cmds := ((activeValues g.ACTIVE).map
                 (fun un => [un.start_button_led pats.1 now,
                             un.start_matrix pats.2 now,
                             un.play_sound (winFile r.win_sound) now])).flatten
              ++ stopAllActive now g
  let rg := reset_game now g
  Except.ok ({ rg.1 with state := GState.PreGameMultiple,
                         control_task := some CtrlTask.PreGameMultipleT },
             cmds ++ rg.2)

/-- Fire the coroutine currently occupying the `_control_task` slot: the
`PlayingAllReleased` and `PlayingMultiplayer` timers hand over to the
`Timeout` task; the rest run their bodies. -/
def timerFire (now : Int) (r : RandDraws) (g : Game) :
    Except String (Game × List Cmd) :=
  match g.control_task with
  | none => Except.ok (g, [])
  | some CtrlTask.PreGameSingleT => control_PreGameSingle now r.choice g
  | some CtrlTask.PreGameMultipleT => control_PreGameMultiple now r.choice g
  | some CtrlTask.PlayingT => Except.ok (g, [])
  | some CtrlTask.PlayingAllReleasedT =>
      Except.ok ({ g with control_task := some CtrlTask.TimeoutT,
                          state := GState.Timeout }, [])
  | some CtrlTask.PlayingMultiplayerT =>
      Except.ok ({ g with control_task := some CtrlTask.TimeoutT,
                          state := GState.Timeout }, [])
  | some CtrlTask.TimeoutT => control_Timeout now r g
  | some CtrlTask.LoseT => control_Lose now r g
  | some CtrlTask.WinT => control_Win now r g
  | some CtrlTask.WaitReleaseT => control_WaitRelease now g
  | some (CtrlTask.EndMultiplayerT p) => player_win now r p g

/-- An engine event: the four external inputs plus the two timer-driven
activities (the `_control_task` coroutine completing its next stage, and
the spawned `transition_to_multiplayer` task running). -/
inductive Event where
  | register (now : Int) (uid : Nat) (latency : Int)
  | unregister (now : Int) (choice : List Nat → Nat) (uid : Nat)
  | press (now : Int) (r : RandDraws) (uid : Nat)
  | release (now : Int) (uid : Nat)
  | timerFire (now : Int) (r : RandDraws)
  | multiTransition (now : Int) (shuffle : List Nat → List Nat)

/-- One step of the engine's serialized event loop. -/
def step (g : Game) : Event → Except String (Game × List Cmd)
  | Event.register now uid lat => register now g uid ⟨uid, lat, false⟩
  | Event.unregister now choice uid => unregister now choice g uid
  | Event.press now r uid => button_pressed now r g uid
  | Event.release now uid => button_released now g uid
  | Event.timerFire now r => timerFire now r g
  | Event.multiTransition now shuffle =>
      if g.transition_pending then transition_to_multiplayer now shuffle g
      else Except.ok (g, [])

/-- Run a trace of events; `none` once a handler aborts (a Python
exception kills the process). -/
def run (g : Game) : List Event → Option Game
  | [] => some g
  | e :: es =>
      match step g e with
      | Except.ok (g1, _) => run g1 es
      | Except.error _ => none

/-! ## Leader election (`Gamemaster` / `GamemasterFSM`) -/

/-- The `GamemasterFSM.STATES` enumeration. -/
inductive ElState where
  | Initial
  | Intent
  | Gamemaster
  | GMEnd
deriving DecidableEq

/-- What one peer's `/request_gamemaster` probe produced on the wire. -/
inductive PeerResp where
  | status (code : Nat)
  | netError
deriving DecidableEq

/-- `Gamemaster._request_gamemaster`: 200 ↦ `True`, 302 ↦ `False`, any
other status falls off the end of the function (`None`), and a network
exception returns `None`. -/
def request_result : PeerResp → Option Bool
  | PeerResp.status c =>
      if c = 200 then some true
      else if c = 302 then some false
      else none
  | PeerResp.netError => none

/-- `Gamemaster.request_gamemaster` over the gathered per-peer results:
`all(result is True for result in results if result is not None)` wins the
role; otherwise `any(result is False ...)` refuses it. -/
def request_gamemaster (rs : List (Option Bool)) : Option Bool :=
  if rs.all (fun x => x ≠ some false) then some true
  else if rs.any (fun x => x = some false) then some false
  else none

/-- `GamemasterFSM.step` in state `Initial`: `higher_visible` is the
truthiness of `get_gamemaster()` (a peer with strictly lower priority
number responded); otherwise the request round decides, and a falsy
outcome sleeps 5 s and stays in `Initial`. -/
def fsm_step_Initial (higher_visible : Bool) (rs : List PeerResp) : ElState :=
  if higher_visible then ElState.Intent
  else
    match request_gamemaster (rs.map request_result) with
    | some true => ElState.Gamemaster
    | _ => ElState.Initial

/-! ## The unit-connection `handler` coroutine -/

/-- How a unit connection's `handler` coroutine terminates. -/
inductive HandlerExit where
  | cleanUnregister
  | transportError
  | otherError
  | streamEnd
  | jsonError
deriving DecidableEq

/-- `game.unregister` calls made before the `finally` block, per exit path
(the `UNREGISTER` branch, the `except ConnectionClosedError` branch and
the `except Exception` branch each call it once). -/
def exitCalls : HandlerExit → Nat
  | HandlerExit.cleanUnregister => 1
  | HandlerExit.transportError => 1
  | HandlerExit.otherError => 1
  | HandlerExit.streamEnd => 0
  | HandlerExit.jsonError => 0

/-- Total `game.unregister` calls the `handler` coroutine issues for a
connection whose `unit_id` is bound: the per-branch call plus the
unconditional one in the `finally` block. -/
def handlerUnregisterCalls (bound : Bool) (e : HandlerExit) : Nat :=
  if bound then exitCalls e + 1 else 0

/-! ## Concrete instances used by counterexamples and witnesses -/

/-- A concrete `random.choice`: picks the first element. -/
def exChoice : List Nat → Nat := fun l => l.headD 0

/-- A concrete `random.shuffle` outcome: the identity permutation. -/
def exShuffle : List Nat → List Nat := fun l => l

/-- Concrete random draws: green-press 3, lose 4, win 5. -/
def exRand : RandDraws := ⟨3, 4, 5, exChoice, exShuffle⟩

def exU1 : GameUnit := ⟨1, 0, false⟩

def exU2 : GameUnit := ⟨2, 0, false⟩

def exU3 : GameUnit := ⟨3, 0, false⟩

/-- Two units, all released, unit 1 is `correct`, unit 2 is `wrong`. -/
def exGameAllReleased : Game := { initGame with
  state := GState.PlayingAllReleased
  ACTIVE := [(1, exU1), (2, exU2)]
  correct := some 1
  wrong := some 2
  control_task := some CtrlTask.PlayingAllReleasedT }

/-- Three units in `Playing`; the previous correct press was at time 0. -/
def exGamePlaying : Game := { initGame with
  state := GState.Playing
  ACTIVE := [(1, exU1), (2, exU2), (3, exU3)]
  correct := some 1
  wrong := some 2
  last_press_time := some 0
  control_task := some CtrlTask.PlayingT }

/-- Three units (odd count) in the multiplayer phase; unit 1 is player 1's
target, unit 2 player 2's. -/
def exGameMulti : Game := { initGame with
  state := GState.PreGameMultiplayer
  ACTIVE := [(1, exU1), (2, exU2), (3, exU3)]
  correct_units := (some 1, some 2)
  player_unit_queue := ([3], [])
  control_task := some CtrlTask.PlayingMultiplayerT }

/-- Three units in the `PreGameMultiple` attract state, unit 2 lit, with a
stale decoy from a previous round (as `_control_Lose` and friends leave
it). -/
def exGamePreMultiple : Game := { initGame with
  state := GState.PreGameMultiple
  ACTIVE := [(1, exU1), (2, exU2), (3, exU3)]
  correct := some 2
  wrong := some 1
  control_task := some CtrlTask.PreGameMultipleT }

/-- One unit, in `Lose` with its control task installed. -/
def exGameLose : Game := { initGame with
  state := GState.Lose
  ACTIVE := [(1, exU1)]
  control_task := some CtrlTask.LoseT }

/-- The game `_control_Lose` produces from `exGameLose`. -/
def exGameLoseOut : Game := { exGameLose with
  state := GState.PreGameSingle
  previous_correct := []
  control_task := some CtrlTask.PreGameSingleT }

/-- The commands `_control_Lose` emits from `exGameLose` at `now = 0`. -/
def exLoseCmds : List Cmd :=
  [⟨1, CmdKind.buttonLedStart (Pattern.named "flash_red"), 0⟩,
   ⟨1, CmdKind.matrixLedStart (Pattern.named "swipe_red"), 0⟩,
   ⟨1, CmdKind.soundStart "sounds/lose/lose4.wav", 0⟩,
   ⟨1, CmdKind.buttonLedOff, 0⟩,
   ⟨1, CmdKind.matrixLedOff, 0⟩,
   ⟨1, CmdKind.soundStop, 0⟩]

/-- One unit, in `Timeout`. -/
def exGameTimeout : Game := { initGame with
  state := GState.Timeout
  ACTIVE := [(1, exU1)]
  control_task := some CtrlTask.TimeoutT }

/-- One registered unit in `PreGameSingle` (the state right after the
first `REGISTER`). -/
def exGame1Unit : Game := { initGame with
  state := GState.PreGameSingle
  ACTIVE := [(1, exU1)]
  control_task := some CtrlTask.PreGameSingleT }

/-- `some` on success, `none` on an aborting handler. -/
def okPart {α : Type} : Except String α → Option α
  | Except.ok a => some a
  | Except.error _ => none

/-- `true` exactly when the handler aborts (a Python exception). -/
def isError {α : Type} : Except String α → Bool
  | Except.ok _ => false
  | Except.error _ => true

/-! ## Amended-claim statements -/

/-- Amended claim C1, one press: in `Playing` the `lose` command goes to
every unit of `ACTIVE`, in `PlayingAllReleased` only to `pressed_units`
(which, the press having just been recorded, contain the pressing unit);
in both states every copy carries the same timestamp
`now + 100 ms + max(latency over pressed_units)` and the drawn sound
index. -/
def C1_prop (now : Int) (r : RandDraws) (g : Game) (uid : Nat)
    (u : GameUnit) : Prop :=
  ∃ g1 cmds, button_pressed now r g uid = Except.ok (g1, cmds) ∧
    g1.state = GState.Lose ∧
    g1.control_task = some CtrlTask.LoseT ∧
    (g.state = GState.Playing →
      cmds = ((activeValues (dictInsert g.ACTIVE uid { u with button_pressed := true })).map
        (fun un => un.lose (loseFile r.lose_sound)
          (sched now (maxLatency (insertPressed { u with button_pressed := true } g.pressed_units))))).flatten) ∧
    (g.state = GState.PlayingAllReleased →
      cmds = ((insertPressed { u with button_pressed := true } g.pressed_units).map
        (fun un => un.lose (loseFile r.lose_sound)
          (sched now (maxLatency (insertPressed { u with button_pressed := true } g.pressed_units))))).flatten)

/-- Amended claim C3: a fast correct press resets the round, stops every
active unit, enters `PreGameMultiplayer` with the transition task pending
(the control-task slot content is not replaced at this point), and when
the delayed transition later succeeds it installs the multiplayer timer
task but leaves the state field at `PreGameMultiplayer` — the engine never
assigns `PlayingMultiplayer`. -/
def C3_prop (now : Int) (r : RandDraws) (g : Game) (uid : Nat) : Prop :=
  ∃ g1 cmds, button_pressed now r g uid = Except.ok (g1, cmds) ∧
    g1.state = GState.PreGameMultiplayer ∧
    g1.transition_pending = true ∧
    g1.fast_press_detected = true ∧
    g1.previous_correct = [] ∧
    g1.unit_list = [] ∧
    g1.correct = none ∧
    g1.wrong = none ∧
    g1.pressed_units = [] ∧
    g1.control_task = g.control_task ∧
    cmds = stopAllActive now g ∧
    ∀ now2 sh g2 cmds2, transition_to_multiplayer now2 sh g1 = Except.ok (g2, cmds2) →
      g2.state = GState.PreGameMultiplayer ∧
      g2.control_task = some CtrlTask.PlayingMultiplayerT ∧
      g2.transition_pending = false

/-- Amended claim C4: the winning threshold the code applies is
`len(ACTIVE) // 2` (floor division). -/
def C4_prop (now : Int) (r : RandDraws) (g : Game) (uid : Nat) (p : Nat) : Prop :=
  ∃ g1 cmds, button_pressed now r g uid = Except.ok (g1, cmds) ∧
    pget g1.player_scores p = pget g.player_scores p + 1 ∧
    (g1.state = GState.EndMultiplayer ↔
      pget g.player_scores p + 1 ≥ g.ACTIVE.length / 2) ∧
    (pget g.player_scores p + 1 ≥ g.ACTIVE.length / 2 →
      g1.control_task = some (CtrlTask.EndMultiplayerT p)) ∧
    (¬ pget g.player_scores p + 1 ≥ g.ACTIVE.length / 2 →
      g1.control_task = some CtrlTask.PlayingMultiplayerT)

/-- Claim C7, both branches of a press in `PreGameMultiple`: the correct
press shuffles, records, advances `correct` to the head and `wrong` to the
drawn member of the tail of the remaining list, and enters `Playing`. -/
def C7_prop (now : Int) (r : RandDraws) (g : Game) (uid : Nat)
    (u : GameUnit) : Prop :=
  (some uid = g.correct →
    ∃ g1 cmds rest,
      button_pressed now r g uid = Except.ok (g1, cmds) ∧
      g1.state = GState.Playing ∧
      g1.control_task = some CtrlTask.PlayingT ∧
      uid ∈ g1.previous_correct ∧
      g1.correct = ((r.shuffle (activeKeys g.ACTIVE)).erase uid).head? ∧
      g1.unit_list = ((r.shuffle (activeKeys g.ACTIVE)).erase uid).tail ∧
      g1.wrong = (if ((r.shuffle (activeKeys g.ACTIVE)).erase uid).tail = []
                  then none
                  else some (r.choice
                    (((r.shuffle (activeKeys g.ACTIVE)).erase uid).tail))) ∧
      cmds = GameUnit.correct_pressed { u with button_pressed := true }
               r.green_sound (sched now u.latency) ++ rest) ∧
  (some uid ≠ g.correct →
    ∃ g1, button_pressed now r g uid = Except.ok (g1, []) ∧
      g1.state = g.state)

/-! ## Theorems -/

/-- Claim C1, counterexample: in `PlayingAllReleased` with active units
{1, 2} and unit 2 the wrong one, pressing 2 transitions to `Lose` but the
`lose` commands target only unit 2 — unit 1, though active, receives
nothing, contradicting "schedules the lose command on every unit in
active". -/
theorem C1_counterexample :
    exGameAllReleased.state = GState.PlayingAllReleased ∧
    activeKeys exGameAllReleased.ACTIVE = [1, 2] ∧
    (okPart (button_pressed 0 exRand exGameAllReleased 2)).map
        (fun p => (p.1.state, p.2.map Cmd.target)) =
      some (GState.Lose, [2, 2, 2]) ∧
    ¬ (1 ∈ [2, 2, 2]) := by decide

/-- Claim C2, counterexample: `_control_Lose` emits its cluster-wide
`lose` and the later `stop_all` with `at = datetime.now()` — at `now = 0`
every command carries timestamp 0, which is not ≥ the causing instant plus
100 ms. -/
theorem C2_counterexample :
    (okPart (control_Lose 0 exRand exGameLose)).map
        (fun p => p.2.map Cmd.atTime) = some [0, 0, 0, 0, 0, 0] ∧
    ¬ ((0 : Int) ≥ 0 + 100) := by decide

/-- Claim C3, counterexample: a fast correct press followed by the delayed
transition task leaves the engine in `PreGameMultiplayer`; the state
`PlayingMultiplayer` is never assigned. -/
theorem C3_counterexample :
    (run exGamePlaying
        [Event.press 1 exRand 1, Event.multiTransition 2 exShuffle]).map
        Game.state = some GState.PreGameMultiplayer ∧
    GState.PreGameMultiplayer ≠ GState.PlayingMultiplayer := by decide

/-- Claim C4, counterexample: with 3 active units (odd), player 1's first
correct press takes the score to 1 and the engine already transitions to
`EndMultiplayer`, although ⌈3/2⌉ = 2 has not been reached. -/
theorem C4_counterexample :
    exGameMulti.ACTIVE.length = 3 ∧
    (okPart (button_pressed 0 exRand exGameMulti 1)).map
        (fun p => (p.1.state, p.1.player_scores.1)) =
      some (GState.EndMultiplayer, 1) ∧
    ¬ ((1 : Nat) ≥ (3 + 1) / 2) := by decide

/-- Claim C5, counterexample: a peer answering 409 (contesting) does not
keep the coordinator in `Initial` — the 409 falls off the end of
`_request_gamemaster` as `None`, is ignored by the `all(...)` filter, and
the coordinator becomes active. -/
theorem C5_counterexample :
    fsm_step_Initial false [PeerResp.status 409] = ElState.Gamemaster ∧
    ElState.Gamemaster ≠ ElState.Initial := by decide

/-- A peer's `/request_gamemaster` probe maps to Python `False` exactly
when the peer answered 302. -/
theorem request_result_eq_some_false (p : PeerResp) :
    request_result p = some false ↔ p = PeerResp.status 302 := by
  cases p with
  | status c =>
      unfold request_result
      by_cases h200 : c = 200
      · simp [h200]
      · by_cases h302 : c = 302
        · simp [h200, h302]
        · simp [h200, h302]
  | netError => simp [request_result]

/-- `request_gamemaster` over the mapped probe results: `True` when no
peer answered 302, `False` otherwise (409s, other statuses and network
errors are all `None` and filtered out). -/
theorem request_gamemaster_eq (rs : List PeerResp) :
    request_gamemaster (rs.map request_result) =
      if PeerResp.status 302 ∈ rs then some false else some true := by
  unfold request_gamemaster
  by_cases h : PeerResp.status 302 ∈ rs
  · rw [if_pos h]
    have hall : ((rs.map request_result).all fun x => x ≠ some false) = false := by
      rw [Bool.eq_false_iff]
      intro hc
      rw [List.all_eq_true] at hc
      have := hc (some false) (List.mem_map.mpr ⟨PeerResp.status 302, h, rfl⟩)
      simp at this
    rw [hall]
    have hany : ((rs.map request_result).any fun x => x = some false) = true := by
      rw [List.any_eq_true]
      exact ⟨some false, List.mem_map.mpr ⟨PeerResp.status 302, h, rfl⟩, by simp⟩
    simp [hany]
  · rw [if_neg h]
    have hall : ((rs.map request_result).all fun x => x ≠ some false) = true := by
      rw [List.all_eq_true]
      intro x hx
      rcases List.mem_map.mp hx with ⟨p, hp, rfl⟩
      simp only [decide_eq_true_eq]
      intro hfalse
      exact h ((request_result_eq_some_false p).mp hfalse ▸ hp)
    rw [hall]
    simp

/-- Claim C5 (corrected): with no higher-priority peer visible, the
coordinator in `Initial` becomes active iff no peer answered 302; peers
answering 409 (or any status other than 200/302) and unreachable peers are
ignored, and only a 302 keeps it in `Initial` for the 5 s retry. -/
theorem C5_theorem (rs : List PeerResp) :
    (fsm_step_Initial false rs = ElState.Gamemaster ↔
      PeerResp.status 302 ∉ rs) ∧
    (fsm_step_Initial false rs = ElState.Initial ↔
      PeerResp.status 302 ∈ rs) := by
  unfold fsm_step_Initial
  rw [if_neg (by simp), request_gamemaster_eq rs]
  by_cases h : PeerResp.status 302 ∈ rs
  · rw [if_pos h]
    refine ⟨⟨fun hc => absurd hc (by simp), fun hc => absurd h hc⟩, ?_⟩
    simp [h]
  · rw [if_neg h]
    refine ⟨⟨fun _ => h, fun _ => rfl⟩, ?_⟩
    simp [h]

/-- Claim C5, witness: one peer answering 409, one answering 200 and one
unreachable — no 302 — so the coordinator becomes active. -/
theorem C5_witness :
    fsm_step_Initial false
      [PeerResp.status 409, PeerResp.status 200, PeerResp.netError] =
      ElState.Gamemaster :=
  (C5_theorem [PeerResp.status 409, PeerResp.status 200,
               PeerResp.netError]).1.mpr (by decide)

/-- Claim C6: on a transport error with a bound `unit_id` the connection
`handler` calls `game.unregister` twice — once in the `except` branch and
once more in the unconditional `finally` block — not exactly once as
specified; the first call empties the engine and clears `_control_task`,
so the duplicate second call hits the failing assertion. -/
theorem C6_theorem :
    handlerUnregisterCalls true HandlerExit.transportError = 2 ∧
    handlerUnregisterCalls true HandlerExit.transportError ≠ 1 ∧
    (okPart (unregister 0 exChoice exGame1Unit 1)).map
        (fun p => (p.1.ACTIVE, p.1.control_task)) = some ([], none) ∧
    isError (unregister 0 exChoice
      { exGame1Unit with ACTIVE := [], control_task := none } 1) = true := by
  decide

/-- Claim C8: in `Timeout` both a press and a release are dropped with the
whole engine state unchanged and no command emitted. -/
theorem C8_theorem (now : Int) (r : RandDraws) (g : Game) (uid : Nat)
    (h : g.state = GState.Timeout) :
    button_pressed now r g uid = Except.ok (g, []) ∧
    button_released now g uid = Except.ok (g, []) := by
  constructor
  · unfold button_pressed
    rw [if_pos h]
  · unfold button_released
    rw [if_pos h]

/-- Claim C8, witness: a concrete press and release in `Timeout`. -/
theorem C8_witness :
    button_pressed 0 exRand exGameTimeout 1 = Except.ok (exGameTimeout, []) ∧
    button_released 0 exGameTimeout 1 = Except.ok (exGameTimeout, []) :=
  C8_theorem 0 exRand exGameTimeout 1 (by rfl)

/-- `_next_correct` only touches `correct` and `unit_list`. -/
theorem next_correct_fields {now : Int} {g g1 : Game} {cs : List Cmd}
    (h : next_correct now g = Except.ok (g1, cs)) :
    g1.ACTIVE = g.ACTIVE ∧ g1.control_task = g.control_task ∧
    g1.state = g.state ∧ g1.pressed_units = g.pressed_units ∧
    g1.previous_correct = g.previous_correct ∧
    g1.transition_pending = g.transition_pending ∧
    g1.player_scores = g.player_scores := by
  unfold next_correct at h
  split at h
  · injection h with h1
    injection h1 with hg hc
    subst hg
    exact ⟨rfl, rfl, rfl, rfl, rfl, rfl, rfl⟩
  · split at h
    · exact Except.noConfusion h
    · injection h with h1
      injection h1 with hg hc
      subst hg
      exact ⟨rfl, rfl, rfl, rfl, rfl, rfl, rfl⟩

/-- The draw phase of `_next_wrong` only touches `wrong`. -/
theorem next_wrong_pick_fields {now : Int} {choice : List Nat → Nat}
    {g g1 : Game} {stopCmds cs : List Cmd}
    (h : next_wrong_pick now choice g stopCmds = Except.ok (g1, cs)) :
    g1.ACTIVE = g.ACTIVE ∧ g1.control_task = g.control_task ∧
    g1.state = g.state ∧ g1.pressed_units = g.pressed_units ∧
    g1.previous_correct = g.previous_correct ∧
    g1.transition_pending = g.transition_pending ∧
    g1.player_scores = g.player_scores := by
  unfold next_wrong_pick at h
  split at h
  · exact Except.noConfusion h
  · injection h with h1
    injection h1 with hg hc
    subst hg
    exact ⟨rfl, rfl, rfl, rfl, rfl, rfl, rfl⟩

/-- `_next_wrong` only touches `wrong`. -/
theorem next_wrong_fields {now : Int} {choice : List Nat → Nat} {g g1 : Game}
    {cs : List Cmd} (h : next_wrong now choice g = Except.ok (g1, cs)) :
    g1.ACTIVE = g.ACTIVE ∧ g1.control_task = g.control_task ∧
    g1.state = g.state ∧ g1.pressed_units = g.pressed_units ∧
    g1.previous_correct = g.previous_correct ∧
    g1.transition_pending = g.transition_pending ∧
    g1.player_scores = g.player_scores := by
  unfold next_wrong at h
  split at h
  · injection h with h1
    injection h1 with hg hc
    subst hg
    exact ⟨rfl, rfl, rfl, rfl, rfl, rfl, rfl⟩
  · split at h
    · exact next_wrong_pick_fields h
    · split at h
      · exact next_wrong_pick_fields h
      · split at h
        · exact Except.noConfusion h
        · exact next_wrong_pick_fields h

/-- The list/correct fixup of `unregister` leaves `ACTIVE`, the control
task, the state, the pressed set and the transition flag alone. -/
theorem unregister_listfix_fields {now : Int} {choice : List Nat → Nat}
    {g1 g2 : Game} {uid : Nat} {c2 : List Cmd}
    (h : unregister_listfix now choice g1 uid = Except.ok (g2, c2)) :
    g2.ACTIVE = g1.ACTIVE ∧ g2.control_task = g1.control_task ∧
    g2.state = g1.state ∧ g2.pressed_units = g1.pressed_units ∧
    g2.transition_pending = g1.transition_pending := by
  unfold unregister_listfix at h
  split at h
  · injection h with h1
    injection h1 with hg hc
    subst hg
    exact ⟨rfl, rfl, rfl, rfl, rfl⟩
  · split at h
    · split at h
      · exact Except.noConfusion h
      · rename_i ga ca heqa
        split at h
        · exact Except.noConfusion h
        · rename_i gb cb heqb
          injection h with h1
          injection h1 with hg hc
          subst hg
          have fa := next_correct_fields heqa
          have fb := next_wrong_fields heqb
          exact ⟨fb.1.trans fa.1, fb.2.1.trans fa.2.1,
                 fb.2.2.1.trans fa.2.2.1, fb.2.2.2.1.trans fa.2.2.2.1,
                 fb.2.2.2.2.2.1.trans fa.2.2.2.2.2.1⟩
    · injection h with h1
      injection h1 with hg hc
      subst hg
      exact ⟨rfl, rfl, rfl, rfl, rfl⟩

/-- The wrong fixup of `unregister` leaves the same fields alone. -/
theorem unregister_wrongfix_fields {now : Int} {choice : List Nat → Nat}
    {g2 g3 : Game} {uid : Nat} {c3 : List Cmd}
    (h : unregister_wrongfix now choice g2 uid = Except.ok (g3, c3)) :
    g3.ACTIVE = g2.ACTIVE ∧ g3.control_task = g2.control_task ∧
    g3.state = g2.state ∧ g3.pressed_units = g2.pressed_units ∧
    g3.transition_pending = g2.transition_pending := by
  unfold unregister_wrongfix at h
  split at h
  · have fb := next_wrong_fields h
    exact ⟨fb.1, fb.2.1, fb.2.2.1, fb.2.2.2.1, fb.2.2.2.2.2.1⟩
  · injection h with h1
    injection h1 with hg hc
    subst hg
    exact ⟨rfl, rfl, rfl, rfl, rfl⟩

/-- Claim C9: `Game.unregister` called with no registered units and no
control task aborts on the `assert self._control_task is not None` (or an
earlier lookup on the empty `ACTIVE`) — it is not a no-op, so a caller
must guarantee a registered unit or a live control task. -/
theorem C9_theorem (now : Int) (choice : List Nat → Nat) (g : Game)
    (uid : Nat) (hA : g.ACTIVE = []) (hT : g.control_task = none) :
    isError (unregister now choice g uid) = true := by
  have hrm : dictRemove g.ACTIVE uid = [] := by rw [hA]; rfl
  unfold unregister
  dsimp only
  split
  · rfl
  · rename_i g2 c2 heq1
    have f1 := unregister_listfix_fields heq1
    split
    · rfl
    · rename_i g3 c3 heq2
      have f2 := unregister_wrongfix_fields heq2
      have h3A : g3.ACTIVE = [] := by rw [f2.1, f1.1]; exact hrm
      have h3T : g3.control_task = none := by rw [f2.2.1, f1.2.1]; exact hT
      unfold unregister_finish
      rw [if_pos (by rw [h3A]; rfl), h3T]
      rfl

/-- Claim C9, witness: `unregister` on the freshly constructed engine
(no units, no control task) aborts. -/
theorem C9_witness : isError (unregister 0 exChoice initGame 5) = true :=
  C9_theorem 0 exChoice initGame 5 rfl rfl

/-- A key present in the dict can be looked up. -/
theorem lookup_of_mem_keys {d : List (Nat × GameUnit)} {k : Nat}
    (h : k ∈ activeKeys d) : ∃ u, dictLookup d k = some u := by
  induction d with
  | nil => simp [activeKeys] at h
  | cons p rest ih =>
      obtain ⟨k0, v0⟩ := p
      simp only [activeKeys, List.map_cons, List.mem_cons] at h
      unfold dictLookup
      by_cases hk : k0 = k
      · rw [if_pos hk]
        exact ⟨v0, rfl⟩
      · rw [if_neg hk]
        rcases h with h | h
        · exact absurd h.symm hk
        · exact ih (by simpa [activeKeys] using h)

/-- Updating an existing key preserves the key list. -/
theorem activeKeys_dictInsert {d : List (Nat × GameUnit)} {k : Nat}
    {u v : GameUnit} (h : dictLookup d k = some u) :
    activeKeys (dictInsert d k v) = activeKeys d := by
  induction d with
  | nil => exact Option.noConfusion h
  | cons p rest ih =>
      obtain ⟨k0, v0⟩ := p
      unfold dictLookup at h
      unfold dictInsert
      by_cases hk : k0 = k
      · rw [if_pos hk]
        simp [activeKeys, hk]
      · rw [if_neg hk] at h ⊢
        simp only [activeKeys, List.map_cons, List.cons.injEq, true_and]
        exact ih h

/-- Updating an existing key preserves the population count. -/
theorem dictInsert_length {d : List (Nat × GameUnit)} {k : Nat}
    {u v : GameUnit} (h : dictLookup d k = some u) :
    (dictInsert d k v).length = d.length := by
  have := @activeKeys_dictInsert d k u v h
  have h1 : (activeKeys (dictInsert d k v)).length = (activeKeys d).length := by
    rw [this]
  simpa [activeKeys] using h1

/-- Reading back the player slot just written. -/
theorem pget_pset {α : Type} (pr : α × α) (p : Nat) (v : α) :
    pget (pset pr p v) p = v := by
  unfold pget pset
  by_cases h : p = 1 <;> simp [h]

/-- `_next_correct_multi` only touches `player_unit_queue` and
`correct_units`. -/
theorem next_correct_multi_fields {now : Int} {p : Nat} {g g1 : Game}
    {cs : List Cmd} (h : next_correct_multi now p g = Except.ok (g1, cs)) :
    g1.ACTIVE = g.ACTIVE ∧ g1.control_task = g.control_task ∧
    g1.state = g.state ∧ g1.pressed_units = g.pressed_units ∧
    g1.previous_correct = g.previous_correct ∧
    g1.transition_pending = g.transition_pending ∧
    g1.player_scores = g.player_scores := by
  unfold next_correct_multi at h
  split at h
  · injection h with h1
    injection h1 with hg hc
    subst hg
    exact ⟨rfl, rfl, rfl, rfl, rfl, rfl, rfl⟩
  · split at h
    · exact Except.noConfusion h
    · injection h with h1
      injection h1 with hg hc
      subst hg
      exact ⟨rfl, rfl, rfl, rfl, rfl, rfl, rfl⟩

/-- `_next_correct_multi` succeeds whenever the player's queue only holds
registered units. -/
theorem next_correct_multi_ok {now : Int} {p : Nat} {g : Game}
    (hq : ∀ x ∈ pget g.player_unit_queue p, x ∈ activeKeys g.ACTIVE) :
    ∃ g1 cs, next_correct_multi now p g = Except.ok (g1, cs) := by
  unfold next_correct_multi
  rcases hq0 : pget g.player_unit_queue p with _ | ⟨c, rest⟩
  · exact ⟨g, [], rfl⟩
  · obtain ⟨cu, hcu⟩ := lookup_of_mem_keys (hq c (by rw [hq0]; exact List.mem_cons_self c rest))
    dsimp only
    rw [hcu]
    exact ⟨_, _, rfl⟩

/-- Outside `Timeout`, for a registered unit, when the fast-press guard
does not fire, `button_pressed` is the per-state dispatch. -/
theorem button_pressed_to_dispatch (now : Int) (r : RandDraws) (g : Game)
    (uid : Nat) (u : GameUnit)
    (hTO : g.state ≠ GState.Timeout)
    (hu : dictLookup g.ACTIVE uid = some u)
    (hfp : ¬ (some uid = g.correct ∧
      (g.state = GState.Playing ∨ g.state = GState.PlayingAllReleased))) :
    button_pressed now r g uid = button_pressed_dispatch now r g uid u := by
  unfold button_pressed
  rw [if_neg hTO, hu]
  dsimp only
  rw [if_neg hfp]

/-- Behavior of `_button_pressed_PlayingMultiplayer` on player `p`'s
current target: score bump, then `EndMultiplayer` exactly on reaching
`len(ACTIVE) // 2`. -/
theorem bp_PlayingMultiplayer_spec (now : Int) (r : RandDraws) (gx : Game)
    (u' : GameUnit) (p : Nat)
    (hp : (p = 1 ∧ gx.correct_units.1 = some u'.unit_id) ∨
          (p = 2 ∧ gx.correct_units.1 ≠ some u'.unit_id ∧
           gx.correct_units.2 = some u'.unit_id))
    (hne : gx.state ≠ GState.EndMultiplayer)
    (hq : ∀ x ∈ pget gx.player_unit_queue p, x ∈ activeKeys gx.ACTIVE) :
    ∃ g2 cmds,
      button_pressed_PlayingMultiplayer now r gx u' = Except.ok (g2, cmds) ∧
      pget g2.player_scores p = pget gx.player_scores p + 1 ∧
      (g2.state = GState.EndMultiplayer ↔
        pget gx.player_scores p + 1 ≥ gx.ACTIVE.length / 2) ∧
      (pget gx.player_scores p + 1 ≥ gx.ACTIVE.length / 2 →
        g2.control_task = some (CtrlTask.EndMultiplayerT p)) ∧
      (¬ pget gx.player_scores p + 1 ≥ gx.ACTIVE.length / 2 →
        g2.control_task = some CtrlTask.PlayingMultiplayerT) := by
  unfold button_pressed_PlayingMultiplayer
  dsimp only
  rcases hp with ⟨rfl, h1⟩ | ⟨rfl, hne1, h2⟩
  · rw [if_pos h1.symm]
    dsimp only
    obtain ⟨g2, c2, hnc⟩ := @next_correct_multi_ok now 1
      { gx with player_scores := pset gx.player_scores 1 (pget gx.player_scores 1 + 1),
                previous_correct := gx.previous_correct.insert u'.unit_id }
      hq
    rw [hnc]
    dsimp only
    have f := next_correct_multi_fields hnc
    have hsc : pget g2.player_scores 1 = pget gx.player_scores 1 + 1 := by
      rw [f.2.2.2.2.2.2]
      exact pget_pset gx.player_scores 1 _
    have hAC : g2.ACTIVE.length = gx.ACTIVE.length := by rw [f.1]
    have hstx : g2.state = gx.state := f.2.2.1
    by_cases hge : pget gx.player_scores 1 + 1 ≥ gx.ACTIVE.length / 2
    · rw [if_pos ⟨by rw [pget_pset, hAC]; exact hge, by rw [hstx]; exact hne⟩]
      refine ⟨_, _, rfl, hsc, by simp [hge], fun _ => rfl, fun hc => absurd hge hc⟩
    · rw [if_neg (fun hc => hge (by rw [pget_pset, hAC] at hc; exact hc.1))]
      refine ⟨_, _, rfl, by simpa using hsc, ?_, fun hc => absurd hc hge, fun _ => rfl⟩
      simp only [hge, iff_false]
      rw [hstx]
      exact hne
  · rw [if_neg (fun hc => hne1 hc.symm), if_pos h2.symm]
    dsimp only
    obtain ⟨g2, c2, hnc⟩ := @next_correct_multi_ok now 2
      { gx with player_scores := pset gx.player_scores 2 (pget gx.player_scores 2 + 1),
                previous_correct := gx.previous_correct.insert u'.unit_id }
      hq
    rw [hnc]
    dsimp only
    have f := next_correct_multi_fields hnc
    have hsc : pget g2.player_scores 2 = pget gx.player_scores 2 + 1 := by
      rw [f.2.2.2.2.2.2]
      exact pget_pset gx.player_scores 2 _
    have hAC : g2.ACTIVE.length = gx.ACTIVE.length := by rw [f.1]
    have hstx : g2.state = gx.state := f.2.2.1
    by_cases hge : pget gx.player_scores 2 + 1 ≥ gx.ACTIVE.length / 2
    · rw [if_pos ⟨by rw [pget_pset, hAC]; exact hge, by rw [hstx]; exact hne⟩]
      refine ⟨_, _, rfl, hsc, by simp [hge], fun _ => rfl, fun hc => absurd hge hc⟩
    · rw [if_neg (fun hc => hge (by rw [pget_pset, hAC] at hc; exact hc.1))]
      refine ⟨_, _, rfl, by simpa using hsc, ?_, fun hc => absurd hc hge, fun _ => rfl⟩
      simp only [hge, iff_false]
      rw [hstx]
      exact hne

/-- Claim C4 (corrected): in the multiplayer phase a press of player p's
current target increments `player_scores[p]` and transitions to
`EndMultiplayer` exactly when the new score reaches `len(ACTIVE) // 2`
(floor division, not the claimed ⌈|active|/2⌉); otherwise it restarts the
15 s inactivity timer task. -/
theorem C4_theorem (now : Int) (r : RandDraws) (g : Game) (uid : Nat)
    (u : GameUnit) (p : Nat)
    (hst : g.state = GState.PreGameMultiplayer ∨
           g.state = GState.PlayingMultiplayer)
    (hu : dictLookup g.ACTIVE uid = some u) (hid : u.unit_id = uid)
    (hp : (p = 1 ∧ g.correct_units.1 = some uid) ∨
          (p = 2 ∧ g.correct_units.1 ≠ some uid ∧
           g.correct_units.2 = some uid))
    (hq : ∀ x ∈ pget g.player_unit_queue p, x ∈ activeKeys g.ACTIVE) :
    C4_prop now r g uid p := by
  have hTO : g.state ≠ GState.Timeout := by
    rcases hst with h | h <;> simp [h]
  have hfp : ¬ (some uid = g.correct ∧
      (g.state = GState.Playing ∨ g.state = GState.PlayingAllReleased)) := by
    rcases hst with h | h <;> simp [h]
  have hbd := button_pressed_to_dispatch now r g uid u hTO hu hfp
  have hpgs : (pressedGame g uid u).state = g.state := rfl
  have hdis : button_pressed_dispatch now r g uid u =
      button_pressed_PlayingMultiplayer now r (pressedGame g uid u)
        { u with button_pressed := true } := by
    unfold button_pressed_dispatch
    dsimp only
    rw [hpgs]
    rcases hst with h | h <;> rw [h]
  have hne : (pressedGame g uid u).state ≠ GState.EndMultiplayer := by
    rw [hpgs]
    rcases hst with h | h <;> simp [h]
  have hq1 : ∀ x ∈ pget (pressedGame g uid u).player_unit_queue p,
      x ∈ activeKeys (pressedGame g uid u).ACTIVE := by
    intro x hx
    show x ∈ activeKeys (dictInsert g.ACTIVE uid { u with button_pressed := true })
    rw [activeKeys_dictInsert hu]
    exact hq x hx
  have hp' : (p = 1 ∧ (pressedGame g uid u).correct_units.1 =
        some ({ u with button_pressed := true } : GameUnit).unit_id) ∨
      (p = 2 ∧ (pressedGame g uid u).correct_units.1 ≠
        some ({ u with button_pressed := true } : GameUnit).unit_id ∧
       (pressedGame g uid u).correct_units.2 =
        some ({ u with button_pressed := true } : GameUnit).unit_id) := by
    show (p = 1 ∧ g.correct_units.1 = some u.unit_id) ∨
         (p = 2 ∧ g.correct_units.1 ≠ some u.unit_id ∧
          g.correct_units.2 = some u.unit_id)
    rw [hid]
    exact hp
  obtain ⟨g2, cmds, hok, hsc, hiff, h1t, h2t⟩ :=
    bp_PlayingMultiplayer_spec now r (pressedGame g uid u)
      { u with button_pressed := true } p hp' hne hq1
  have hlen : (pressedGame g uid u).ACTIVE.length = g.ACTIVE.length :=
    dictInsert_length hu
  rw [hlen] at hiff h1t h2t
  refine ⟨g2, cmds, by rw [hbd, hdis]; exact hok, hsc, hiff, h1t, h2t⟩

/-- Claim C4, witness: three units, player 1 presses their target. -/
theorem C4_witness : C4_prop 0 exRand exGameMulti 1 1 :=
  C4_theorem 0 exRand exGameMulti 1 exU1 1 (Or.inl rfl) (by rfl) rfl
    (Or.inl ⟨rfl, rfl⟩) (by decide)

/-- Claim C2 (corrected): the single-target "correct press" cue re-issued
from `Playing` carries `at = now + 100 ms + latency(target)`, but not
every actuator command respects the margin: everything `_control_Lose`
emits carries the bare instant `now`, which is strictly before
`now + 100 ms`. -/
theorem C2_theorem :
    (∀ now : Int, ∀ r : RandDraws, ∀ g : Game, ∀ uid : Nat, ∀ u : GameUnit,
       ∀ g1 : Game, ∀ cmds : List Cmd,
       g.state = GState.Playing →
       dictLookup g.ACTIVE uid = some u → u.unit_id = uid →
       uid ∈ g.previous_correct → some uid ≠ g.correct →
       button_pressed now r g uid = Except.ok (g1, cmds) →
       ∀ c ∈ cmds, c.atTime = now + 100 + u.latency) ∧
    (∀ now : Int, ∀ r : RandDraws, ∀ g g1 : Game, ∀ cmds : List Cmd,
       control_Lose now r g = Except.ok (g1, cmds) →
       (∀ c ∈ cmds, c.atTime = now) ∧ now < now + 100) := by
  constructor
  · intro now r g uid u g1 cmds hst hu hid hpc hnc hok
    have hTO : g.state ≠ GState.Timeout := by rw [hst]; simp
    have hfp : ¬ (some uid = g.correct ∧
        (g.state = GState.Playing ∨ g.state = GState.PlayingAllReleased)) :=
      fun hc => hnc hc.1
    rw [button_pressed_to_dispatch now r g uid u hTO hu hfp] at hok
    unfold button_pressed_dispatch at hok
    dsimp only at hok
    rw [show (pressedGame g uid u).state = g.state from rfl, hst] at hok
    dsimp only at hok
    unfold button_pressed_Playing at hok
    rw [if_pos (show ({ u with button_pressed := true } : GameUnit).unit_id ∈
        (pressedGame g uid u).previous_correct from by
      show u.unit_id ∈ g.previous_correct
      rw [hid]
      exact hpc)] at hok
    injection hok with h1
    injection h1 with hg hcq
    subst hcq
    intro c hcm
    simp only [GameUnit.correct_pressed, GameUnit.start_button_led,
      GameUnit.start_matrix, GameUnit.play_sound, List.mem_cons,
      List.not_mem_nil, or_false] at hcm
    rcases hcm with rfl | rfl | rfl <;> rfl
  · intro now r g g1 cmds hok
    have hcm : ∀ c ∈ ((activeValues g.ACTIVE).map
        (fun un => un.lose (loseFile r.lose_sound) now)).flatten ++
        stopAllActive now g, c.atTime = now := by
      intro c hc
      rcases List.mem_append.mp hc with hc | hc
      · rcases List.mem_flatten.mp hc with ⟨l, hl, hcl⟩
        rcases List.mem_map.mp hl with ⟨un, hun, rfl⟩
        simp only [GameUnit.lose, GameUnit.start_button_led,
          GameUnit.start_matrix, GameUnit.play_sound, List.mem_cons,
          List.not_mem_nil, or_false] at hcl
        rcases hcl with rfl | rfl | rfl <;> rfl
      · unfold stopAllActive at hc
        rcases List.mem_flatten.mp hc with ⟨l, hl, hcl⟩
        rcases List.mem_map.mp hl with ⟨un, hun, rfl⟩
        simp only [GameUnit.stop_all, List.mem_cons, List.not_mem_nil,
          or_false] at hcl
        rcases hcl with rfl | rfl | rfl <;> rfl
    have hceq : cmds = ((activeValues g.ACTIVE).map
        (fun un => un.lose (loseFile r.lose_sound) now)).flatten ++
        stopAllActive now g := by
      unfold control_Lose at hok
      dsimp only at hok
      split at hok
      · injection hok with h1
        injection h1 with hg hcq
        exact hcq.symm
      · split at hok
        · injection hok with h1
          injection h1 with hg hcq
          exact hcq.symm
        · injection hok with h1
          injection h1 with hg hcq
          exact hcq.symm
    exact ⟨fun c hc => hcm c (hceq ▸ hc), by omega⟩

/-- Claim C2, witness: the concrete `_control_Lose` run of
`C2_counterexample`, through the amended theorem. -/
theorem C2_witness :
    (∀ c ∈ exLoseCmds, c.atTime = 0) ∧ (0 : Int) < 0 + 100 :=
  C2_theorem.2 0 exRand exGameLose exGameLoseOut exLoseCmds (by rfl)

/-- The pressed set is non-empty right after a press is recorded. -/
theorem insertPressed_ne_nil (u : GameUnit) (l : List GameUnit) :
    ∃ p ps, insertPressed u l = p :: ps := by
  unfold insertPressed
  split
  · rename_i hany
    cases l with
    | nil => simp at hany
    | cons a as => exact ⟨_, _, rfl⟩
  · exact ⟨u, l, rfl⟩

/-- Claim C1 (corrected): a press of the wrong unit in `Playing` targets
every active unit, in `PlayingAllReleased` only the pressed units; both
transition to `Lose` and stamp every copy with
`now + 100 ms + max(latency over pressed_units)`. -/
theorem C1_theorem (now : Int) (r : RandDraws) (g : Game) (uid : Nat)
    (u : GameUnit) (t : CtrlTask)
    (hst : g.state = GState.Playing ∨ g.state = GState.PlayingAllReleased)
    (hu : dictLookup g.ACTIVE uid = some u) (hid : u.unit_id = uid)
    (hw : some uid = g.wrong) (hnc : some uid ≠ g.correct)
    (hpc : uid ∉ g.previous_correct) (ht : g.control_task = some t) :
    C1_prop now r g uid u := by
  have hTO : g.state ≠ GState.Timeout := by
    rcases hst with h | h <;> simp [h]
  have hfp : ¬ (some uid = g.correct ∧
      (g.state = GState.Playing ∨ g.state = GState.PlayingAllReleased)) :=
    fun hc => hnc hc.1
  have hbd := button_pressed_to_dispatch now r g uid u hTO hu hfp
  have hpcx : ¬ ({ u with button_pressed := true } : GameUnit).unit_id ∈
      (pressedGame g uid u).previous_correct := by
    show ¬ u.unit_id ∈ g.previous_correct
    rw [hid]
    exact hpc
  have hwx : some ({ u with button_pressed := true } : GameUnit).unit_id =
      (pressedGame g uid u).wrong := by
    show some u.unit_id = g.wrong
    rw [hid]
    exact hw
  obtain ⟨p, ps, hpp⟩ :=
    insertPressed_ne_nil { u with button_pressed := true } g.pressed_units
  rcases hst with hsp | hsp
  · have hdis : button_pressed_dispatch now r g uid u =
        button_pressed_Playing now r (pressedGame g uid u)
          { u with button_pressed := true } := by
      unfold button_pressed_dispatch
      dsimp only
      rw [show (pressedGame g uid u).state = g.state from rfl, hsp]
    unfold C1_prop
    rw [hbd, hdis]
    unfold button_pressed_Playing
    rw [if_neg hpcx, if_pos hwx,
        show (pressedGame g uid u).pressed_units =
          insertPressed { u with button_pressed := true } g.pressed_units
          from rfl, hpp]
    dsimp only
    rw [show (pressedGame g uid u).control_task = g.control_task from rfl, ht]
    refine ⟨_, _, rfl, rfl, rfl, fun _ => ?_, fun hcon => ?_⟩
    · rfl
    · rw [hsp] at hcon
      exact GState.noConfusion hcon
  · have hdis : button_pressed_dispatch now r g uid u =
        button_pressed_PlayingAllReleased now r (pressedGame g uid u)
          { u with button_pressed := true } := by
      unfold button_pressed_dispatch
      dsimp only
      rw [show (pressedGame g uid u).state = g.state from rfl, hsp]
    unfold C1_prop
    rw [hbd, hdis]
    unfold button_pressed_PlayingAllReleased
    rw [if_neg hpcx, if_pos hwx,
        show (pressedGame g uid u).pressed_units =
          insertPressed { u with button_pressed := true } g.pressed_units
          from rfl, hpp]
    dsimp only
    rw [show (pressedGame g uid u).control_task = g.control_task from rfl, ht]
    refine ⟨_, _, rfl, rfl, rfl, fun hcon => ?_, fun _ => ?_⟩
    · rw [hsp] at hcon
      exact GState.noConfusion hcon
    · rfl

/-- Claim C1, witness: pressing the red decoy (unit 2) in `Playing`. -/
theorem C1_witness : C1_prop 0 exRand exGamePlaying 2 exU2 :=
  C1_theorem 0 exRand exGamePlaying 2 exU2 CtrlTask.PlayingT (Or.inl rfl)
    (by rfl) rfl rfl (by decide) (by decide) rfl

/-- A successful lookup means the key is present. -/
theorem mem_keys_of_lookup {d : List (Nat × GameUnit)} {k : Nat}
    {u : GameUnit} (h : dictLookup d k = some u) : k ∈ activeKeys d := by
  induction d with
  | nil => exact Option.noConfusion h
  | cons p rest ih =>
      obtain ⟨k0, v0⟩ := p
      unfold dictLookup at h
      by_cases hk : k0 = k
      · simp [activeKeys, hk]
      · rw [if_neg hk] at h
        simp only [activeKeys, List.map_cons, List.mem_cons]
        exact Or.inr (by simpa [activeKeys] using ih h)

/-- `_next_correct` followed by `_next_wrong` (the advance after a correct
press), when the pending list holds only registered units, `wrong` is
unset and `choice` obeys its contract: it succeeds, `correct` becomes the
head of the pending list and `unit_list` its tail. -/
theorem nc_nw_spec (now : Int) (choice : List Nat → Nat) (g : Game)
    (hch : ∀ l : List Nat, l ≠ [] → choice l ∈ l)
    (hsub : ∀ x ∈ g.unit_list, x ∈ activeKeys g.ACTIVE)
    (hw : g.wrong = none ∨
          ∃ w, g.wrong = some w ∧ w ∈ activeKeys g.ACTIVE) :
    ∃ g2 c2 g3 c3,
      next_correct now g = Except.ok (g2, c2) ∧
      next_wrong now choice g2 = Except.ok (g3, c3) ∧
      g3.correct = g.unit_list.head? ∧
      g3.unit_list = g.unit_list.tail ∧
      g3.wrong = (if g.unit_list.tail = [] then none
                  else some (choice g.unit_list.tail)) ∧
      g3.control_task = g.control_task ∧
      g3.state = g.state ∧
      g3.previous_correct = g.previous_correct := by
  cases hul : g.unit_list with
  | nil =>
      refine ⟨{ g with correct := none }, [],
              { g with correct := none, wrong := none }, [], ?_, ?_, ?_, ?_,
              ?_, rfl, rfl, rfl⟩
      · unfold next_correct
        rw [hul]
      · unfold next_wrong
        show (match g.unit_list with
              | [] => Except.ok (({ g with correct := none, wrong := none } : Game), ([] : List Cmd))
              | _ :: _ => _) = _
        rw [hul]
      · rw [hul]
        rfl
      · rw [hul]
        rfl
      · simp [hul]
  | cons c0 rest =>
      obtain ⟨cu, hcu⟩ :=
        lookup_of_mem_keys (hsub c0 (by rw [hul]; exact List.mem_cons_self c0 rest))
      have hnc : next_correct now g =
          Except.ok ({ g with correct := some c0, unit_list := rest },
                     cu.correct (sched now cu.latency)) := by
        unfold next_correct
        rw [hul]
        dsimp only
        rw [hcu]
      cases rest with
      | nil =>
          refine ⟨_, _, { g with correct := some c0, unit_list := [],
                                 wrong := none }, [], hnc, ?_, rfl, rfl, ?_,
                  rfl, rfl, rfl⟩
          · unfold next_wrong
            rfl
          · simp
      | cons r0 rs =>
          have hmem : choice (r0 :: rs) ∈ r0 :: rs :=
            hch (r0 :: rs) (List.cons_ne_nil r0 rs)
          obtain ⟨wu, hwu⟩ := lookup_of_mem_keys
            (hsub (choice (r0 :: rs))
              (by rw [hul]; exact List.mem_cons_of_mem c0 hmem))
          rcases hw with hw0 | ⟨w, hwsome, hwk⟩
          · refine ⟨_, _, { g with correct := some c0, unit_list := r0 :: rs,
                                   wrong := some (choice (r0 :: rs)) },
                    wu.wrong (sched now wu.latency), hnc, ?_, rfl, rfl, ?_,
                    rfl, rfl, rfl⟩
            · unfold next_wrong
              dsimp only
              rw [hw0]
              dsimp only
              unfold next_wrong_pick
              dsimp only
              rw [hwu]
              rfl
            · simp
          · by_cases hwc : (some w : Option Nat) = some c0
            · refine ⟨_, _, { g with correct := some c0, unit_list := r0 :: rs,
                                     wrong := some (choice (r0 :: rs)) },
                      wu.wrong (sched now wu.latency), hnc, ?_, rfl, rfl, ?_,
                      rfl, rfl, rfl⟩
              · unfold next_wrong
                dsimp only
                rw [hwsome]
                dsimp only
                rw [if_pos hwc]
                unfold next_wrong_pick
                dsimp only
                rw [hwu]
                rfl
              · simp
            · obtain ⟨owu, howu⟩ := lookup_of_mem_keys hwk
              refine ⟨_, _, { g with correct := some c0, unit_list := r0 :: rs,
                                     wrong := some (choice (r0 :: rs)) },
                      owu.stop_all now ++ wu.wrong (sched now wu.latency),
                      hnc, ?_, rfl, rfl, ?_, rfl, rfl, rfl⟩
              · unfold next_wrong
                dsimp only
                rw [hwsome]
                dsimp only
                rw [if_neg hwc]
                rw [howu]
                dsimp only
                unfold next_wrong_pick
                dsimp only
                rw [hwu]
              · simp

/-- Claim C7: in `PreGameMultiple` a press of the lit unit cues it, records
it, shuffles the keys into `unit_list`, removes the pressed unit, advances
`correct` and `wrong` and enters `Playing`; any other press changes
nothing.  A stale decoy (left over from a previous round, as
`_control_Lose`/`_control_Win`/`_control_Timeout` re-enter the attract
state without clearing `wrong`) is allowed as long as it is still
registered — otherwise `_next_wrong` raises `KeyError` in the source. -/
theorem C7_theorem (now : Int) (r : RandDraws) (g : Game) (uid : Nat)
    (u : GameUnit) (t : CtrlTask)
    (hst : g.state = GState.PreGameMultiple)
    (hu : dictLookup g.ACTIVE uid = some u) (hid : u.unit_id = uid)
    (hw : g.wrong = none ∨
          ∃ w, g.wrong = some w ∧ w ∈ activeKeys g.ACTIVE)
    (ht : g.control_task = some t)
    (hperm : (r.shuffle (activeKeys g.ACTIVE)).Perm (activeKeys g.ACTIVE))
    (hch : ∀ l : List Nat, l ≠ [] → r.choice l ∈ l) :
    C7_prop now r g uid u := by
  have hTO : g.state ≠ GState.Timeout := by rw [hst]; simp
  have hfp : ¬ (some uid = g.correct ∧
      (g.state = GState.Playing ∨ g.state = GState.PlayingAllReleased)) := by
    rw [hst]
    simp
  have hbd := button_pressed_to_dispatch now r g uid u hTO hu hfp
  have hdis : button_pressed_dispatch now r g uid u =
      button_pressed_PreGameMultiple now r (pressedGame g uid u)
        { u with button_pressed := true } := by
    unfold button_pressed_dispatch
    dsimp only
    rw [show (pressedGame g uid u).state = g.state from rfl, hst]
  have hkeys : activeKeys (pressedGame g uid u).ACTIVE = activeKeys g.ACTIVE := by
    show activeKeys (dictInsert g.ACTIVE uid { u with button_pressed := true }) =
      activeKeys g.ACTIVE
    exact activeKeys_dictInsert hu
  constructor
  · intro hc
    have hcx : some ({ u with button_pressed := true } : GameUnit).unit_id =
        (pressedGame g uid u).correct := by
      show some u.unit_id = g.correct
      rw [hid]
      exact hc
    rw [hbd, hdis]
    unfold button_pressed_PreGameMultiple
    rw [if_pos hcx]
    unfold setup_game
    dsimp only
    rw [hkeys]
    have hmem : u.unit_id ∈ r.shuffle (activeKeys g.ACTIVE) := by
      rw [hid]
      exact hperm.mem_iff.mpr (mem_keys_of_lookup hu)
    rw [if_pos hmem]
    obtain ⟨g4, c4, g5, c5, hnc, hnw, hcor, hulx, hwr, htask, hst5, hprev⟩ :=
      nc_nw_spec now r.choice
        { pressedGame g uid u with
            previous_correct :=
              (pressedGame g uid u).previous_correct.insert u.unit_id,
            last_button_press := some now,
            unit_list := (r.shuffle (activeKeys g.ACTIVE)).erase u.unit_id }
        hch
        (by
          intro x hx
          have hx2 : x ∈ r.shuffle (activeKeys g.ACTIVE) :=
            List.mem_of_mem_erase hx
          show x ∈ activeKeys (pressedGame g uid u).ACTIVE
          rw [hkeys]
          exact hperm.mem_iff.mp hx2)
        (by
          rcases hw with h0 | ⟨w, hw1, hw2⟩
          · exact Or.inl h0
          · refine Or.inr ⟨w, hw1, ?_⟩
            show w ∈ activeKeys (pressedGame g uid u).ACTIVE
            rw [hkeys]
            exact hw2)
    rw [hnc]
    dsimp only
    rw [hnw]
    dsimp only
    rw [htask.trans ht]
    refine ⟨_, _, c4 ++ c5, rfl, rfl, rfl, ?_, ?_, ?_, ?_, ?_⟩
    · show uid ∈ g5.previous_correct
      rw [hprev]
      show uid ∈ List.insert u.unit_id g.previous_correct
      rw [hid]
      exact List.mem_insert_self uid g.previous_correct
    · show g5.correct = ((r.shuffle (activeKeys g.ACTIVE)).erase uid).head?
      rw [hcor]
      show ((r.shuffle (activeKeys g.ACTIVE)).erase u.unit_id).head? =
        ((r.shuffle (activeKeys g.ACTIVE)).erase uid).head?
      rw [hid]
    · show g5.unit_list = ((r.shuffle (activeKeys g.ACTIVE)).erase uid).tail
      rw [hulx]
      show ((r.shuffle (activeKeys g.ACTIVE)).erase u.unit_id).tail =
        ((r.shuffle (activeKeys g.ACTIVE)).erase uid).tail
      rw [hid]
    · show g5.wrong =
        (if ((r.shuffle (activeKeys g.ACTIVE)).erase uid).tail = [] then none
         else some (r.choice (((r.shuffle (activeKeys g.ACTIVE)).erase uid).tail)))
      rw [hwr]
      show (if ((r.shuffle (activeKeys g.ACTIVE)).erase u.unit_id).tail = []
            then none
            else some (r.choice (((r.shuffle (activeKeys g.ACTIVE)).erase u.unit_id).tail))) =
        (if ((r.shuffle (activeKeys g.ACTIVE)).erase uid).tail = [] then none
         else some (r.choice (((r.shuffle (activeKeys g.ACTIVE)).erase uid).tail)))
      rw [hid]
    · exact List.append_assoc _ c4 c5
  · intro hc
    refine ⟨pressedGame g uid u, ?_, rfl⟩
    rw [hbd, hdis]
    unfold button_pressed_PreGameMultiple
    rw [if_neg (show ¬ some ({ u with button_pressed := true } : GameUnit).unit_id =
        (pressedGame g uid u).correct from by
      show ¬ some u.unit_id = g.correct
      rw [hid]
      exact hc)]

/-- Claim C7, witness: pressing the lit unit 2 in `PreGameMultiple` with
three units and a stale but still-registered decoy (unit 1) left over from
a previous round. -/
theorem C7_witness : C7_prop 0 exRand exGamePreMultiple 2 exU2 :=
  C7_theorem 0 exRand exGamePreMultiple 2 exU2 CtrlTask.PreGameMultipleT rfl
    (by rfl) rfl (Or.inr ⟨1, rfl, by decide⟩) rfl (by decide)
    (fun l hl => by
      cases l with
      | nil => exact absurd rfl hl
      | cons a as => exact List.mem_cons_self a as)

/-- Claim C3 (corrected): a fast correct press switches to multiplayer
setup instead of the single-player logic, but the engine never assigns
`PlayingMultiplayer`: it enters `PreGameMultiplayer` and stays there even
after the delayed transition installs the multiplayer timer. -/
theorem C3_theorem (now : Int) (r : RandDraws) (g : Game) (uid : Nat)
    (u : GameUnit) (t0 : Int)
    (hst : g.state = GState.Playing ∨ g.state = GState.PlayingAllReleased)
    (hu : dictLookup g.ACTIVE uid = some u)
    (hc : some uid = g.correct)
    (hlt : g.last_press_time = some t0)
    (hfast : now - t0 < g.press_threshold) :
    C3_prop now r g uid := by
  have hTO : g.state ≠ GState.Timeout := by
    rcases hst with h | h <;> simp [h]
  unfold C3_prop
  unfold button_pressed
  rw [if_neg hTO, hu]
  dsimp only
  rw [if_pos ⟨hc, hst⟩]
  unfold is_fast_press
  rw [hlt]
  dsimp only
  rw [show decide (now - t0 < g.press_threshold) = true from decide_eq_true hfast]
  unfold start_multiplayer reset_game
  dsimp only
  refine ⟨_, _, rfl, rfl, rfl, rfl, rfl, rfl, rfl, rfl, rfl, rfl, rfl, ?_⟩
  intro now2 sh g2 cmds2 htr
  unfold transition_to_multiplayer at htr
  dsimp only at htr
  split at htr
  · exact Except.noConfusion htr
  · rename_i ga ca hca
    split at htr
    · exact Except.noConfusion htr
    · rename_i gb cb hcb
      injection htr with h1
      injection h1 with hg2 hcm
      subst hg2
      have fa := next_correct_multi_fields hca
      have fb := next_correct_multi_fields hcb
      refine ⟨?_, rfl, rfl⟩
      show gb.state = GState.PreGameMultiplayer
      rw [fb.2.2.1, fa.2.2.1]

/-- Claim C3, witness: with three units in `Playing`, the lit unit is
pressed again 1 ms after the previous correct press. -/
theorem C3_witness : C3_prop 1 exRand exGamePlaying 1 :=
  C3_theorem 1 exRand exGamePlaying 1 exU1 0 (Or.inl rfl) (by rfl) rfl rfl
    (by decide)

/-- `_button_pressed_PreGameSingle` never produces `WaitRelease`. -/
theorem bp_PreGameSingle_stateWR {now : Int} {r : RandDraws} {g g1 : Game}
    {u : GameUnit} {c : List Cmd}
    (h : button_pressed_PreGameSingle now r g u = Except.ok (g1, c))
    (h2 : g.state ≠ GState.WaitRelease) : g1.state ≠ GState.WaitRelease := by
  unfold button_pressed_PreGameSingle at h
  split at h
  · exact Except.noConfusion h
  · injection h with h1
    injection h1 with hg hc
    subst hg
    intro hcon
    exact GState.noConfusion hcon

/-- `_button_pressed_PreGameMultiple` never produces `WaitRelease`. -/
theorem bp_PreGameMultiple_stateWR {now : Int} {r : RandDraws} {g g1 : Game}
    {u : GameUnit} {c : List Cmd}
    (h : button_pressed_PreGameMultiple now r g u = Except.ok (g1, c))
    (h2 : g.state ≠ GState.WaitRelease) : g1.state ≠ GState.WaitRelease := by
  unfold button_pressed_PreGameMultiple at h
  dsimp only at h
  split at h
  · split at h
    · split at h
      · exact Except.noConfusion h
      · rename_i ga ca heqa
        split at h
        · exact Except.noConfusion h
        · rename_i gb cb heqb
          split at h
          · exact Except.noConfusion h
          · injection h with h1
            injection h1 with hg hc
            subst hg
            intro hcon
            exact GState.noConfusion hcon
    · exact Except.noConfusion h
  · injection h with h1
    injection h1 with hg hc
    subst hg
    exact h2

/-- `_button_pressed_Playing` never produces `WaitRelease`. -/
theorem bp_Playing_stateWR {now : Int} {r : RandDraws} {g g1 : Game}
    {u : GameUnit} {c : List Cmd}
    (h : button_pressed_Playing now r g u = Except.ok (g1, c))
    (h2 : g.state ≠ GState.WaitRelease) : g1.state ≠ GState.WaitRelease := by
  unfold button_pressed_Playing at h
  dsimp only at h
  split at h
  · injection h with h1
    injection h1 with hg hc
    subst hg
    exact h2
  · split at h
    · split at h
      · exact Except.noConfusion h
      · split at h
        · exact Except.noConfusion h
        · injection h with h1
          injection h1 with hg hc
          subst hg
          intro hcon
          exact GState.noConfusion hcon
    · split at h
      · split at h
        · split at h
          · exact Except.noConfusion h
          · injection h with h1
            injection h1 with hg hc
            subst hg
            intro hcon
            exact GState.noConfusion hcon
        · split at h
          · exact Except.noConfusion h
          · rename_i ga ca heqa
            split at h
            · exact Except.noConfusion h
            · rename_i gb cb heqb
              injection h with h1
              injection h1 with hg hc
              subst hg
              have fa := next_correct_fields heqa
              have fb := next_wrong_fields heqb
              rw [fb.2.2.1, fa.2.2.1]
              exact h2
      · injection h with h1
        injection h1 with hg hc
        subst hg
        exact h2

/-- `_button_pressed_PlayingAllReleased` never produces `WaitRelease`. -/
theorem bp_PlayingAllReleased_stateWR {now : Int} {r : RandDraws}
    {g g1 : Game} {u : GameUnit} {c : List Cmd}
    (h : button_pressed_PlayingAllReleased now r g u = Except.ok (g1, c))
    (h2 : g.state ≠ GState.WaitRelease) : g1.state ≠ GState.WaitRelease := by
  unfold button_pressed_PlayingAllReleased at h
  dsimp only at h
  split at h
  · injection h with h1
    injection h1 with hg hc
    subst hg
    intro hcon
    exact GState.noConfusion hcon
  · split at h
    · split at h
      · exact Except.noConfusion h
      · split at h
        · exact Except.noConfusion h
        · injection h with h1
          injection h1 with hg hc
          subst hg
          intro hcon
          exact GState.noConfusion hcon
    · split at h
      · split at h
        · split at h
          · exact Except.noConfusion h
          · injection h with h1
            injection h1 with hg hc
            subst hg
            intro hcon
            exact GState.noConfusion hcon
        · split at h
          · exact Except.noConfusion h
          · rename_i ga ca heqa
            split at h
            · exact Except.noConfusion h
            · rename_i gb cb heqb
              split at h
              · exact Except.noConfusion h
              · injection h with h1
                injection h1 with hg hc
                subst hg
                intro hcon
                exact GState.noConfusion hcon
      · injection h with h1
        injection h1 with hg hc
        subst hg
        exact h2

/-- `_button_pressed_PlayingMultiplayer` never produces `WaitRelease`. -/
theorem bp_PlayingMultiplayer_stateWR {now : Int} {r : RandDraws}
    {g g1 : Game} {u : GameUnit} {c : List Cmd}
    (h : button_pressed_PlayingMultiplayer now r g u = Except.ok (g1, c))
    (h2 : g.state ≠ GState.WaitRelease) : g1.state ≠ GState.WaitRelease := by
  unfold button_pressed_PlayingMultiplayer at h
  dsimp only at h
  split at h
  · injection h with h1
    injection h1 with hg hc
    subst hg
    exact h2
  · rename_i p hp
    split at h
    · exact Except.noConfusion h
    · rename_i ga ca heqa
      have fa := next_correct_multi_fields heqa
      split at h
      · injection h with h1
        injection h1 with hg hc
        subst hg
        intro hcon
        exact GState.noConfusion hcon
      · injection h with h1
        injection h1 with hg hc
        subst hg
        show ga.state ≠ GState.WaitRelease
        rw [fa.2.2.1]
        exact h2

/-- `_start_multiplayer` sets `PreGameMultiplayer`. -/
theorem start_multiplayer_stateWR {now : Int} {g g1 : Game} {c : List Cmd}
    (h : start_multiplayer now g = Except.ok (g1, c)) :
    g1.state ≠ GState.WaitRelease := by
  unfold start_multiplayer at h
  dsimp only at h
  injection h with h1
  injection h1 with hg hc
  subst hg
  intro hcon
  exact GState.noConfusion hcon

/-- `_is_fast_press` does not change the state field. -/
theorem is_fast_press_state (now : Int) (g : Game) :
    (is_fast_press now g).2.state = g.state := by
  unfold is_fast_press
  cases g.last_press_time <;> rfl

/-- The press dispatch never produces `WaitRelease` from a non-`WaitRelease`
state. -/
theorem bp_dispatch_stateWR {now : Int} {r : RandDraws} {g g1 : Game}
    {uid : Nat} {u : GameUnit} {c : List Cmd}
    (h : button_pressed_dispatch now r g uid u = Except.ok (g1, c))
    (h2 : g.state ≠ GState.WaitRelease) : g1.state ≠ GState.WaitRelease := by
  have h2' : (pressedGame g uid u).state ≠ GState.WaitRelease := h2
  unfold button_pressed_dispatch at h
  dsimp only at h
  split at h
  · exact bp_PreGameSingle_stateWR h h2'
  · exact bp_PreGameMultiple_stateWR h h2'
  · exact bp_Playing_stateWR h h2'
  · exact bp_PlayingAllReleased_stateWR h h2'
  · injection h with h1
    injection h1 with hg hc
    subst hg
    exact h2'
  · injection h with h1
    injection h1 with hg hc
    subst hg
    exact h2'
  · rename_i heq
    exact absurd heq h2'
  · exact bp_PlayingMultiplayer_stateWR h h2'
  · exact bp_PlayingMultiplayer_stateWR h h2'
  · injection h with h1
    injection h1 with hg hc
    subst hg
    exact h2'

/-- `Game.button_pressed` never produces `WaitRelease` from a
non-`WaitRelease` state. -/
theorem button_pressed_stateWR {now : Int} {r : RandDraws} {g g1 : Game}
    {uid : Nat} {c : List Cmd}
    (h : button_pressed now r g uid = Except.ok (g1, c))
    (h2 : g.state ≠ GState.WaitRelease) : g1.state ≠ GState.WaitRelease := by
  unfold button_pressed at h
  split at h
  · injection h with h1
    injection h1 with hg hc
    subst hg
    exact h2
  · split at h
    · injection h with h1
      injection h1 with hg hc
      subst hg
      exact h2
    · dsimp only at h
      split at h
      · split at h
        · exact start_multiplayer_stateWR h
        · exact bp_dispatch_stateWR h
            (by rw [is_fast_press_state]; exact h2)
      · exact bp_dispatch_stateWR h h2

/-- `_button_released_Playing` never produces `WaitRelease`. -/
theorem br_Playing_stateWR {g g1 : Game} {c : List Cmd}
    (h : button_released_Playing g = Except.ok (g1, c))
    (h2 : g.state ≠ GState.WaitRelease) : g1.state ≠ GState.WaitRelease := by
  unfold button_released_Playing at h
  split at h
  · split at h
    · exact Except.noConfusion h
    · injection h with h1
      injection h1 with hg hc
      subst hg
      intro hcon
      exact GState.noConfusion hcon
  · injection h with h1
    injection h1 with hg hc
    subst hg
    exact h2

/-- `Game.button_released` never produces `WaitRelease` from a
non-`WaitRelease` state. -/
theorem button_released_stateWR {now : Int} {g g1 : Game} {uid : Nat}
    {c : List Cmd}
    (h : button_released now g uid = Except.ok (g1, c))
    (h2 : g.state ≠ GState.WaitRelease) : g1.state ≠ GState.WaitRelease := by
  unfold button_released at h
  split at h
  · injection h with h1
    injection h1 with hg hc
    subst hg
    exact h2
  · split at h
    · injection h with h1
      injection h1 with hg hc
      subst hg
      exact h2
    · dsimp only at h
      split at h
      · exact br_Playing_stateWR h h2
      · rename_i heq
        exact absurd heq h2
      · injection h with h1
        injection h1 with hg hc
        subst hg
        exact h2

/-- `_register_NoUnits` sets `PreGameSingle`. -/
theorem register_NoUnits_stateWR {g g1 : Game} {c : List Cmd}
    (h : register_NoUnits g = Except.ok (g1, c)) :
    g1.state ≠ GState.WaitRelease := by
  unfold register_NoUnits at h
  split at h
  · exact Except.noConfusion h
  · injection h with h1
    injection h1 with hg hc
    subst hg
    intro hcon
    exact GState.noConfusion hcon

/-- `_register_PreGameSingle` never produces `WaitRelease`. -/
theorem register_PreGameSingle_stateWR {g g1 : Game} {c : List Cmd}
    (h : register_PreGameSingle g = Except.ok (g1, c))
    (h2 : g.state ≠ GState.WaitRelease) : g1.state ≠ GState.WaitRelease := by
  unfold register_PreGameSingle at h
  split at h
  · split at h
    · exact Except.noConfusion h
    · injection h with h1
      injection h1 with hg hc
      subst hg
      intro hcon
      exact GState.noConfusion hcon
  · split at h
    · split at h
      · exact Except.noConfusion h
      · injection h with h1
        injection h1 with hg hc
        subst hg
        intro hcon
        exact GState.noConfusion hcon
    · injection h with h1
      injection h1 with hg hc
      subst hg
      exact h2

/-- `Game.register` never produces `WaitRelease` from a non-`WaitRelease`
state. -/
theorem register_stateWR {now : Int} {g g1 : Game} {uid : Nat}
    {u : GameUnit} {c : List Cmd}
    (h : register now g uid u = Except.ok (g1, c))
    (h2 : g.state ≠ GState.WaitRelease) : g1.state ≠ GState.WaitRelease := by
  unfold register at h
  dsimp only at h
  split at h
  · exact Except.noConfusion h
  · rename_i g2 cs heq
    injection h with h1
    injection h1 with hg hc
    subst hg
    split at heq
    · exact register_NoUnits_stateWR heq
    · exact register_PreGameSingle_stateWR heq h2
    · injection heq with h1
      injection h1 with hg hc
      subst hg
      exact h2

/-- The population recompute of `unregister` never produces `WaitRelease`. -/
theorem unregister_finish_stateWR {g g1 : Game} {cs c : List Cmd}
    (h : unregister_finish g cs = Except.ok (g1, c))
    (h2 : g.state ≠ GState.WaitRelease) : g1.state ≠ GState.WaitRelease := by
  unfold unregister_finish at h
  split at h
  · split at h
    · exact Except.noConfusion h
    · injection h with h1
      injection h1 with hg hc
      subst hg
      intro hcon
      exact GState.noConfusion hcon
  · split at h
    · split at h
      · exact Except.noConfusion h
      · injection h with h1
        injection h1 with hg hc
        subst hg
        intro hcon
        exact GState.noConfusion hcon
    · split at h
      · split at h
        · exact Except.noConfusion h
        · injection h with h1
          injection h1 with hg hc
          subst hg
          intro hcon
          exact GState.noConfusion hcon
      · injection h with h1
        injection h1 with hg hc
        subst hg
        exact h2

/-- `Game.unregister` never produces `WaitRelease` from a non-`WaitRelease`
state. -/
theorem unregister_stateWR {now : Int} {choice : List Nat → Nat}
    {g g1 : Game} {uid : Nat} {c : List Cmd}
    (h : unregister now choice g uid = Except.ok (g1, c))
    (h2 : g.state ≠ GState.WaitRelease) : g1.state ≠ GState.WaitRelease := by
  unfold unregister at h
  dsimp only at h
  split at h
  · exact Except.noConfusion h
  · rename_i g2 c2 heq1
    split at h
    · exact Except.noConfusion h
    · rename_i g3 c3 heq2
      have f1 := unregister_listfix_fields heq1
      have f2 := unregister_wrongfix_fields heq2
      refine unregister_finish_stateWR h ?_
      rw [f2.2.2.1, f1.2.2.1]
      exact h2

/-- The draw phase of `_control_PreGameSingle` keeps the state. -/
theorem cPGS_pick_stateWR {now : Int} {choice : List Nat → Nat} {g g1 : Game}
    {sc c : List Cmd}
    (h : control_PreGameSingle_pick now choice g sc = Except.ok (g1, c))
    (h2 : g.state ≠ GState.WaitRelease) : g1.state ≠ GState.WaitRelease := by
  unfold control_PreGameSingle_pick at h
  split at h
  · exact Except.noConfusion h
  · split at h
    · exact Except.noConfusion h
    · injection h with h1
      injection h1 with hg hc
      subst hg
      exact h2

/-- `_control_PreGameSingle` keeps the state. -/
theorem cPGS_stateWR {now : Int} {choice : List Nat → Nat} {g g1 : Game}
    {c : List Cmd}
    (h : control_PreGameSingle now choice g = Except.ok (g1, c))
    (h2 : g.state ≠ GState.WaitRelease) : g1.state ≠ GState.WaitRelease := by
  unfold control_PreGameSingle at h
  split at h
  · exact cPGS_pick_stateWR h h2
  · split at h
    · exact Except.noConfusion h
    · exact cPGS_pick_stateWR h h2

/-- The draw phase of `_control_PreGameMultiple` keeps the state. -/
theorem cPGM_pick_stateWR {now : Int} {choice : List Nat → Nat} {g g1 : Game}
    {sc c : List Cmd}
    (h : control_PreGameMultiple_pick now choice g sc = Except.ok (g1, c))
    (h2 : g.state ≠ GState.WaitRelease) : g1.state ≠ GState.WaitRelease := by
  unfold control_PreGameMultiple_pick at h
  split at h
  · exact Except.noConfusion h
  · split at h
    · injection h with h1
      injection h1 with hg hc
      subst hg
      exact h2
    · split at h
      · exact Except.noConfusion h
      · injection h with h1
        injection h1 with hg hc
        subst hg
        exact h2

/-- `_control_PreGameMultiple` keeps the state. -/
theorem cPGM_stateWR {now : Int} {choice : List Nat → Nat} {g g1 : Game}
    {c : List Cmd}
    (h : control_PreGameMultiple now choice g = Except.ok (g1, c))
    (h2 : g.state ≠ GState.WaitRelease) : g1.state ≠ GState.WaitRelease := by
  unfold control_PreGameMultiple at h
  split at h
  · exact cPGM_pick_stateWR h h2
  · split at h
    · exact Except.noConfusion h
    · exact cPGM_pick_stateWR h h2

/-- `_control_Timeout` never produces `WaitRelease`. -/
theorem cTimeout_stateWR {now : Int} {r : RandDraws} {g g1 : Game}
    {c : List Cmd}
    (h : control_Timeout now r g = Except.ok (g1, c))
    (h2 : g.state ≠ GState.WaitRelease) : g1.state ≠ GState.WaitRelease := by
  unfold control_Timeout at h
  dsimp only at h
  split at h
  · split at h
    · injection h with h1
      injection h1 with hg hc
      subst hg
      intro hcon
      exact GState.noConfusion hcon
    · split at h
      · injection h with h1
        injection h1 with hg hc
        subst hg
        intro hcon
        exact GState.noConfusion hcon
      · injection h with h1
        injection h1 with hg hc
        subst hg
        exact h2
  · injection h with h1
    injection h1 with hg hc
    subst hg
    exact h2

/-- `_control_Lose` never produces `WaitRelease`. -/
theorem cLose_stateWR {now : Int} {r : RandDraws} {g g1 : Game}
    {c : List Cmd}
    (h : control_Lose now r g = Except.ok (g1, c))
    (h2 : g.state ≠ GState.WaitRelease) : g1.state ≠ GState.WaitRelease := by
  unfold control_Lose at h
  dsimp only at h
  split at h
  · injection h with h1
    injection h1 with hg hc
    subst hg
    intro hcon
    exact GState.noConfusion hcon
  · split at h
    · injection h with h1
      injection h1 with hg hc
      subst hg
      intro hcon
      exact GState.noConfusion hcon
    · injection h with h1
      injection h1 with hg hc
      subst hg
      exact h2

/-- `_control_Win` never produces `WaitRelease`. -/
theorem cWin_stateWR {now : Int} {r : RandDraws} {g g1 : Game}
    {c : List Cmd}
    (h : control_Win now r g = Except.ok (g1, c))
    (h2 : g.state ≠ GState.WaitRelease) : g1.state ≠ GState.WaitRelease := by
  unfold control_Win at h
  dsimp only at h
  split at h
  · injection h with h1
    injection h1 with hg hc
    subst hg
    intro hcon
    exact GState.noConfusion hcon
  · split at h
    · injection h with h1
      injection h1 with hg hc
      subst hg
      intro hcon
      exact GState.noConfusion hcon
    · injection h with h1
      injection h1 with hg hc
      subst hg
      exact h2

/-- `_player_win` ends in `PreGameMultiple`. -/
theorem player_win_stateWR {now : Int} {r : RandDraws} {p : Nat}
    {g g1 : Game} {c : List Cmd}
    (h : player_win now r p g = Except.ok (g1, c)) :
    g1.state ≠ GState.WaitRelease := by
  unfold player_win at h
  dsimp only at h
  injection h with h1
  injection h1 with hg hc
  subst hg
  intro hcon
  exact GState.noConfusion hcon

/-- The delayed multiplayer transition keeps the state. -/
theorem transition_stateWR {now : Int} {sh : List Nat → List Nat}
    {g g1 : Game} {c : List Cmd}
    (h : transition_to_multiplayer now sh g = Except.ok (g1, c))
    (h2 : g.state ≠ GState.WaitRelease) : g1.state ≠ GState.WaitRelease := by
  unfold transition_to_multiplayer at h
  dsimp only at h
  split at h
  · exact Except.noConfusion h
  · rename_i ga ca heqa
    split at h
    · exact Except.noConfusion h
    · rename_i gb cb heqb
      injection h with h1
      injection h1 with hg hc
      subst hg
      have fa := next_correct_multi_fields heqa
      have fb := next_correct_multi_fields heqb
      show gb.state ≠ GState.WaitRelease
      rw [fb.2.2.1, fa.2.2.1]
      exact h2

/-- Firing the control task never produces `WaitRelease`. -/
theorem timerFire_stateWR {now : Int} {r : RandDraws} {g g1 : Game}
    {c : List Cmd}
    (h : timerFire now r g = Except.ok (g1, c))
    (h2 : g.state ≠ GState.WaitRelease) : g1.state ≠ GState.WaitRelease := by
  unfold timerFire at h
  split at h
  · injection h with h1
    injection h1 with hg hc
    subst hg
    exact h2
  · exact cPGS_stateWR h h2
  · exact cPGM_stateWR h h2
  · injection h with h1
    injection h1 with hg hc
    subst hg
    exact h2
  · injection h with h1
    injection h1 with hg hc
    subst hg
    intro hcon
    exact GState.noConfusion hcon
  · injection h with h1
    injection h1 with hg hc
    subst hg
    intro hcon
    exact GState.noConfusion hcon
  · exact cTimeout_stateWR h h2
  · exact cLose_stateWR h h2
  · exact cWin_stateWR h h2
  · unfold control_WaitRelease at h
    injection h with h1
    injection h1 with hg hc
    subst hg
    exact h2
  · exact player_win_stateWR h

/-- One engine step never produces `WaitRelease` from a non-`WaitRelease`
state. -/
theorem step_stateWR {g g1 : Game} {e : Event} {c : List Cmd}
    (h : step g e = Except.ok (g1, c))
    (h2 : g.state ≠ GState.WaitRelease) : g1.state ≠ GState.WaitRelease := by
  cases e with
  | register now uid lat => exact register_stateWR h h2
  | unregister now choice uid => exact unregister_stateWR h h2
  | press now r uid => exact button_pressed_stateWR h h2
  | release now uid => exact button_released_stateWR h h2
  | timerFire now r => exact timerFire_stateWR h h2
  | multiTransition now sh =>
      unfold step at h
      dsimp only at h
      split at h
      · exact transition_stateWR h h2
      · injection h with h1
        injection h1 with hg hc
        subst hg
        exact h2

/-- Running any trace from a non-`WaitRelease` state never reaches
`WaitRelease`. -/
theorem run_stateWR (evs : List Event) : ∀ g g1 : Game,
    g.state ≠ GState.WaitRelease → run g evs = some g1 →
    g1.state ≠ GState.WaitRelease := by
  induction evs with
  | nil =>
      intro g g1 h2 h
      unfold run at h
      injection h with h1
      subst h1
      exact h2
  | cons e es ih =>
      intro g g1 h2 h
      unfold run at h
      split at h
      · rename_i gm cm heq
        exact ih gm g1 (step_stateWR heq h2) h
      · exact Option.noConfusion h

/-- Claim C10: over every trace of register, unregister, press, release
and timer events from the initial engine, the state is never
`WaitRelease` — no handler or control task ever assigns it, so its press
handler, release handler and 10 s flash-blue control task are
unreachable. -/
theorem C10_theorem (evs : List Event) (g1 : Game)
    (h : run initGame evs = some g1) : g1.state ≠ GState.WaitRelease :=
  run_stateWR evs initGame g1
    (fun hcon => GState.noConfusion hcon) h

/-- Claim C10, witness: the trace consisting of a single registration. -/
theorem C10_witness : exGame1Unit.state ≠ GState.WaitRelease :=
  C10_theorem [Event.register 0 1 0] exGame1Unit (by decide)
